import Mathlib

/-!
Shallow embedding of the `dash480` Home Assistant integration
(`custom_components/dash480/__init__.py`): the layout compiler
(`svc_dump_layout`, `_home_layout_lines`), the full-publish path
(`_publish_all`, `_publish_page_num`, `_publish_option_pages`), the
touch-event router (`_state_event`) and the component-level service
dispatch (`_pick_entry_id` and the `svc_*` services).

Python dicts are modelled as insertion-ordered association lists,
machine integers as `Nat`/`Int`, monotonic time as `Int` milliseconds
(so the 0.35 s cooldown window is 350), and every
MQTT publish / service call / task creation as an explicit `Effect`.
String payloads are reproduced verbatim where a claim refers to them
(the JSONL dump); for the publish path the published objects are
modelled structurally (page, id, text of each widget) since no claim
refers to the remaining style attributes.
-/

namespace Dash480

/-! ## Small Python-semantics helpers -/

/-- Insertion-ordered association-list lookup, Python `d.get(k)`. -/
def lookupKV {α : Type} (m : List (String × α)) (k : String) : Option α :=
  (m.find? (fun p => p.1 == k)).map (·.2)

/-- Python `d[k] = v` on a dict: overwrite in place, else append. -/
def insertKV {α : Type} (m : List (String × α)) (k : String) (v : α) :
    List (String × α) :=
  if m.any (fun p => p.1 == k) then
    m.map (fun p => if p.1 == k then (p.1, v) else p)
  else m ++ [(k, v)]

/-- Python `d.setdefault(k, []).append(v)` on a dict of lists. -/
def appendKV {α : Type} (m : List (String × List α)) (k : String) (v : α) :
    List (String × List α) :=
  if m.any (fun p => p.1 == k) then
    m.map (fun p => if p.1 == k then (p.1, p.2 ++ [v]) else p)
  else m ++ [(k, [v])]

/-- Same maps, keyed by page number (`int` keys). -/
def lookupN {α : Type} (m : List (Nat × α)) (k : Nat) : Option α :=
  (m.find? (fun p => p.1 == k)).map (·.2)

def insertN {α : Type} (m : List (Nat × α)) (k : Nat) (v : α) :
    List (Nat × α) :=
  if m.any (fun p => p.1 == k) then
    m.map (fun p => if p.1 == k then (p.1, v) else p)
  else m ++ [(k, v)]

/-- Python `ent.split(".")[0]`: the prefix before the first dot. -/
def domainOf (e : String) : String :=
  String.mk (e.toList.takeWhile (fun c => !(c == '.')))

/-- Python `s or default` for an optional string option (`None` and `""`
are falsy). -/
def pyOr (v : Option String) (d : String) : String :=
  match v with
  | some s => if s = "" then d else s
  | none => d

/-- Decimal digits to `Nat` (callers check `isdigit` first). -/
def parseNat (cs : List Char) : Nat :=
  cs.foldl (fun a c => a * 10 + (c.toNat - 48)) 0

/-- Python `str.isdigit()` (ASCII fragment; `""` is falsy). -/
def pyIsDigit (cs : List Char) : Bool :=
  !cs.isEmpty && cs.all Char.isDigit

/-- Prefix test on char lists. -/
def isPrefixL : List Char → List Char → Bool
  | [], _ => true
  | _ :: _, [] => false
  | a :: as, b :: bs => a == b && isPrefixL as bs

/-- Infix (substring) test on char lists. -/
def isInfixL (needle : List Char) : List Char → Bool
  | [] => isPrefixL needle []
  | hay =>
    match hay with
    | [] => false
    | _ :: rest => isPrefixL needle hay || isInfixL needle rest

/-- Substring test, Python `needle in haystack` on strings. -/
def strIn (needle haystack : String) : Bool :=
  isInfixL needle.toList haystack.toList

/-- Whitespace trim on both ends (Python `str.strip()` / `str.trim`). -/
def trimChars (cs : List Char) : List Char :=
  ((cs.dropWhile Char.isWhitespace).reverse.dropWhile Char.isWhitespace).reverse

def pyStrip (s : String) : String := String.mk (trimChars s.toList)

/-- Python `s.replace(chr(34), chr(92) + chr(34))`: escape double quotes. -/
def escQuote (s : String) : String :=
  String.mk (s.toList.flatMap (fun c => if c == '"' then ['\\', '"'] else [c]))

def strStartsWith (s pre : String) : Bool :=
  isPrefixL pre.toList s.toList

/-- ASCII lowercase (Python `str.lower()` on the ASCII mode names). -/
def lowerCh (c : Char) : Char :=
  if 'A' ≤ c ∧ c ≤ 'Z' then Char.ofNat (c.toNat + 32) else c

def strLower (s : String) : String := String.mk (s.toList.map lowerCh)

/-! ## Layout templates (`LAYOUT_TEMPLATES`, `_tile_specs_for_layout`) -/

structure TileSpec where
  row : Nat
  col : Nat
  rs : Nat := 1
  cs : Nat := 1
  special : Option String := none
deriving Repr, DecidableEq

def grid_3x2 : List TileSpec :=
  [⟨0,0,1,1,none⟩, ⟨0,1,1,1,none⟩, ⟨0,2,1,1,none⟩,
   ⟨1,0,1,1,none⟩, ⟨1,1,1,1,none⟩, ⟨1,2,1,1,none⟩]

def grid_3x3 : List TileSpec :=
  [⟨0,0,1,1,none⟩, ⟨0,1,1,1,none⟩, ⟨0,2,1,1,none⟩,
   ⟨1,0,1,1,none⟩, ⟨1,1,1,1,none⟩, ⟨1,2,1,1,none⟩,
   ⟨2,0,1,1,none⟩, ⟨2,1,1,1,none⟩, ⟨2,2,1,1,none⟩]

def clock_top : List TileSpec :=
  [⟨0,0,1,3,some "clock"⟩,
   ⟨1,0,1,1,none⟩, ⟨1,1,1,1,none⟩, ⟨1,2,1,1,none⟩,
   ⟨2,0,1,1,none⟩, ⟨2,1,1,1,none⟩, ⟨2,2,1,1,none⟩]

def shades_row : List TileSpec :=
  [⟨0,0,1,1,none⟩, ⟨0,1,1,1,none⟩, ⟨0,2,1,1,none⟩,
   ⟨1,0,1,1,none⟩, ⟨1,1,1,1,none⟩, ⟨1,2,1,1,none⟩,
   ⟨2,0,1,3,some "shades"⟩]

def LAYOUT_TEMPLATES (name : String) : Option (List TileSpec) :=
  if name = "grid_3x2" then some grid_3x2
  else if name = "grid_3x3" then some grid_3x3
  else if name = "clock_top" then some clock_top
  else if name = "shades_row" then some shades_row
  else none

/-- Source `LAYOUT_TEMPLATES.get(layout or "", LAYOUT_TEMPLATES["grid_3x3"])`. -/
def _tile_specs_for_layout (layout : String) : List TileSpec :=
  (LAYOUT_TEMPLATES layout).getD grid_3x3

/-! ## Config entries and entity states -/

/-- A Page config entry: `page_order` from entry data, the rest from
entry options (`layout`, `s1..s12`, `s{i}_icon`, `title`). `""` slots
are unset, mirroring `pe.options.get(f"s{i}", "")`. -/
structure PageEntry where
  page_order : Nat
  layout : Option String := none
  slots : List String := []
  slotIcons : List (Option String) := []
  title : Option String := none
deriving Repr, DecidableEq

/-- A Panel config entry with its options already resolved the way the
setup code reads them (`home_title` defaulting to `node_name`). -/
structure PanelCfg where
  node_name : String
  home_title : String
  temp_entity : String := ""
  pages : List PageEntry := []
deriving Repr, DecidableEq

/-- The slice of a HA state object this integration reads. -/
structure EntState where
  state : String
  friendly_name : Option String := none
  supported_color_modes : List String := []
deriving Repr, DecidableEq

/-- Models `hass.states` as a finite map. -/
abbrev States := List (String × EntState)

def getState (st : States) (e : String) : Option EntState :=
  (st.find? (fun p => p.1 == e)).map (·.2)

/-- The `STATE_UNKNOWN/STATE_UNAVAILABLE/None/""` guard used throughout:
`st.state if st and st.state not in (...) else "--"`. -/
def stateValOr (st : Option EntState) (d : String) : String :=
  match st with
  | some s =>
      if s.state = "unknown" ∨ s.state = "unavailable" ∨ s.state = "" then d
      else s.state
  | none => d

/-- Python `st.attributes.get("friendly_name", ent) if st_ent else ent`. -/
def labelOf (st : Option EntState) (ent : String) : String :=
  match st with
  | some s => s.friendly_name.getD ent
  | none => ent

/-- Source `slot_defs = [(f"s{i}", pe.options.get(f"s{i}", "")) for i in range(1, 13)]`,
with the key kept as the slot index `i`. -/
def slot_defs (pe : PageEntry) : List (Nat × String) :=
  (List.range' 1 12).map (fun i => (i, pe.slots.getD (i - 1) ""))

def filled_slots (pe : PageEntry) : List (Nat × String) :=
  (slot_defs pe).filter (fun p => p.2 ≠ "")

/-- Layout auto-selection, identical in `svc_dump_layout` and
`_publish_page_num`: force `shades_row` when any configured slot is a
cover, then default to `grid_3x2`. -/
def effectiveLayout (pe : PageEntry) : String :=
  let anyCover := (slot_defs pe).any (fun p => p.2 ≠ "" && domainOf p.2 == "cover")
  let l1 : Option String :=
    if pe.layout ≠ some "shades_row" ∧ anyCover then some "shades_row" else pe.layout
  match l1 with
  | none => "grid_3x2"
  | some s => if s = "" then "grid_3x2" else s

/-- The shades-row pairing loop: covers prefer the `shades` tile,
everything else the normal tiles, each falling back to the other queue. -/
def shadesAssign : List TileSpec → List (Nat × String) → List (Nat × String) →
    List (TileSpec × Option (Nat × String))
  | [], _, _ => []
  | t :: ts, cq, oq =>
    if t.special = some "shades" then
      match cq with
      | c :: cs => (t, some c) :: shadesAssign ts cs oq
      | [] =>
        match oq with
        | o :: os => (t, some o) :: shadesAssign ts [] os
        | [] => (t, none) :: shadesAssign ts [] []
    else
      match oq with
      | o :: os => (t, some o) :: shadesAssign ts cq os
      | [] =>
        match cq with
        | c :: cs => (t, some c) :: shadesAssign ts cs []
        | [] => (t, none) :: shadesAssign ts [] []

/-- The plain pairing loop, Python `queue.pop(0) if queue else None`. -/
def seqAssign : List TileSpec → List (Nat × String) →
    List (TileSpec × Option (Nat × String))
  | [], _ => []
  | t :: ts, [] => (t, none) :: seqAssign ts []
  | t :: ts, q :: qs => (t, some q) :: seqAssign ts qs

/-- The `assignments` list as built by both generations of the layout walk. -/
def buildAssignments (pe : PageEntry) : List (TileSpec × Option (Nat × String)) :=
  let layout := effectiveLayout pe
  let tiles := _tile_specs_for_layout layout
  let filled := filled_slots pe
  if layout = "shades_row" then
    shadesAssign tiles
      (filled.filter (fun p => domainOf p.2 == "cover"))
      (filled.filter (fun p => !(domainOf p.2 == "cover")))
  else
    seqAssign tiles filled



/-! ## Option-page specs (shared shape between publish and dump) -/

structure OptionSpec where
  entity : String
  otype : String
  origin_page : Nat
  page_id : Nat
  friendly_name : String
  trigger_topic : String
deriving Repr, DecidableEq

/-- The color-capability test shared by both layout generations:
join the `supported_color_modes`, lowercase, and look for
`hs`/`rgb`/`rgbw`/`rgbww` as substrings. -/
def has_color_modes (modes : List String) : Bool :=
  let m := strLower (String.intercalate "," modes)
  strIn "hs" m || strIn "rgb" m || strIn "rgbw" m || strIn "rgbww" m

/-! ## Page ring and prev/next (`pprev`, `pnext`) -/

/-- Stable ascending insertion used to model Python's stable
`list.sort(key=page_order)`. -/
def insPage (x : PageEntry) : List PageEntry → List PageEntry
  | [] => [x]
  | y :: ys => if y.page_order ≤ x.page_order then y :: insPage x ys else x :: y :: ys

def sortPages (l : List PageEntry) : List PageEntry :=
  l.foldl (fun acc x => insPage x acc) []

def page_numbers (cfg : PanelCfg) : List Nat :=
  (sortPages cfg.pages).map (·.page_order)

/-- Source `pages_ring = [1] + page_numbers`. -/
def pages_ring (cfg : PanelCfg) : List Nat := 1 :: page_numbers cfg

/-- Source `pages_ring[(pages_ring.index(p) - 1) % len(pages_ring)]`
(Python `%` on a positive modulus is non-negative). -/
def pprev (ring : List Nat) (p : Nat) : Nat :=
  let i := ring.indexOf p
  ring.getD ((i + ring.length - 1) % ring.length) 0

/-- Source `pages_ring[(pages_ring.index(p) + 1) % len(pages_ring)]`. -/
def pnext (ring : List Nat) (p : Nat) : Nat :=
  let i := ring.indexOf p
  ring.getD ((i + 1) % ring.length) 0

/-- The page-1 navigation line is emitted only when pages exist:
`prev` is the last (highest) and `next` the first (lowest) sorted
page number. -/
def homeLink (cfg : PanelCfg) : Option (Nat × Nat) :=
  match page_numbers cfg with
  | [] => none
  | n :: ns => some (ns.getLastD n, n)

/-! ## `_home_layout_lines` -/

/-- Source `_home_layout_lines(node_name, title, temp_text)`: the fixed
header/footer/home-page JSONL block (`node_name` is accepted and unused,
as in the source). -/
def _home_layout_lines (node_name title temp_text : String) : List String :=
  let t := escQuote title
  let tt := if temp_text = "" then "--" else escQuote temp_text
  [ "\x7b\"page\":0,\"id\":0,\"obj\":\"page\"\x7d",
    "\x7b\"page\":1,\"id\":0,\"obj\":\"page\"\x7d",
    "\x7b\"page\":0,\"id\":10,\"obj\":\"obj\",\"x\":0,\"y\":0,\"w\":480,\"h\":56,\"bg_color\":\"#1F2937\",\"bg_opa\":255,\"radius\":0,\"border_width\":0,\"bg_grad_dir\":\"none\",\"outline_width\":0,\"shadow_width\":0\x7d",
    "\x7b\"page\":0,\"id\":1,\"obj\":\"label\",\"x\":12,\"y\":8,\"w\":120,\"h\":40,\"text\":\"--\",\"template\":\"%b %d\",\"text_font\":35,\"align\":\"left\",\"text_color\":\"#E5E7EB\",\"bg_opa\":0\x7d",
    s!"\x7b\"page\":0,\"id\":2,\"obj\":\"btn\",\"x\":140,\"y\":8,\"w\":200,\"h\":40,\"text\":\"{t}\",\"text_font\":35,\"text_color\":\"#FFFFFF\",\"bg_opa\":0,\"border_width\":0,\"radius\":0,\"outline_width\":0,\"shadow_width\":0,\"toggle\":false\x7d",
    s!"\x7b\"page\":0,\"id\":3,\"obj\":\"btn\",\"x\":320,\"y\":8,\"w\":148,\"h\":40,\"text\":\"{tt}\",\"text_font\":24,\"align\":\"right\",\"text_color\":\"#E5E7EB\",\"bg_opa\":0,\"border_width\":0,\"radius\":0,\"outline_width\":0,\"shadow_width\":0,\"toggle\":false\x7d",
    "\x7b\"page\":0,\"id\":90,\"obj\":\"btn\",\"action\":\x7b\"down\": \"page prev\"\x7d,\"x\":0,\"y\":430,\"w\":160,\"h\":50,\"bg_color\":\"#2C3E50\",\"text\":\"\\uE141\",\"text_color\":\"#FFFFFF\",\"radius\":0,\"border_side\":0,\"border_width\":0,\"bg_grad_dir\":\"none\",\"outline_width\":0,\"shadow_width\":0,\"text_font\":48\x7d",
    "\x7b\"page\":0,\"id\":91,\"obj\":\"btn\",\"action\":\x7b\"down\": \"page 1\"\x7d,\"x\":160,\"y\":430,\"w\":160,\"h\":50,\"bg_color\":\"#2C3E50\",\"text\":\"\\uE2DC\",\"text_color\":\"#FFFFFF\",\"radius\":0,\"border_side\":0,\"border_width\":0,\"bg_grad_dir\":\"none\",\"outline_width\":0,\"shadow_width\":0,\"text_font\":48\x7d",
    "\x7b\"page\":0,\"id\":92,\"obj\":\"btn\",\"action\":\x7b\"down\": \"page next\"\x7d,\"x\":320,\"y\":430,\"w\":160,\"h\":50,\"bg_color\":\"#2C3E50\",\"text\":\"\\uE142\",\"text_color\":\"#FFFFFF\",\"radius\":0,\"border_side\":0,\"border_width\":0,\"bg_grad_dir\":\"none\",\"outline_width\":0,\"shadow_width\":0,\"text_font\":48\x7d",
    "\x7b\"page\":1,\"obj\":\"obj\",\"id\":180,\"x\":0,\"y\":0,\"w\":480,\"h\":480,\"bg_color\":\"#0B1220\",\"bg_opa\":255,\"click\":false\x7d",
    "\x7b\"page\":1,\"obj\":\"label\",\"id\":100,\"x\":0,\"y\":72,\"w\":480,\"h\":96,\"text\":\"00:00\",\"template\":\"%H:%M\",\"text_font\":96,\"align\":\"center\",\"text_color\":\"#E5E7EB\",\"bg_opa\":0\x7d",
    "\x7b\"page\":1,\"obj\":\"btn\",\"id\":112,\"x\":25,\"y\":300,\"w\":120,\"h\":60,\"text\":\"Relay 1\",\"text_font\":26,\"toggle\":true,\"groupid\":1,\"radius\":8,\"bg_color\":\"#374151\",\"text_color\":\"#FFFFFF\",\"border_width\":0\x7d",
    "\x7b\"page\":1,\"obj\":\"btn\",\"id\":122,\"x\":175,\"y\":300,\"w\":120,\"h\":60,\"text\":\"Relay 2\",\"text_font\":26,\"toggle\":true,\"groupid\":2,\"radius\":8,\"bg_color\":\"#374151\",\"text_color\":\"#FFFFFF\",\"border_width\":0\x7d",
    "\x7b\"page\":1,\"obj\":\"btn\",\"id\":132,\"x\":325,\"y\":300,\"w\":120,\"h\":60,\"text\":\"Relay 3\",\"text_font\":26,\"toggle\":true,\"groupid\":3,\"radius\":8,\"bg_color\":\"#374151\",\"text_color\":\"#FFFFFF\",\"border_width\":0\x7d" ]

/-! ## `svc_dump_layout`: the pure JSONL builder -/

/-- Dump-walk accumulator: emitted lines, collected option specs and
the `next_option_page` counter (source starts it at 50). -/
structure DumpAcc where
  lines : List String
  option_specs : List OptionSpec
  next_option_page : Nat
deriving Repr, DecidableEq

/-- Dump geometry `cell_xy` (base 24/120, steps 152/140). -/
def dump_cell_xy (row col : Nat) : Nat × Nat := (24 + col * 152, 120 + row * 140)

/-- Shared geometry `cell_wh`. -/
def cell_wh (rs cs : Nat) : Nat × Nat :=
  (128 * cs + 24 * (cs - 1), 120 * rs + 20 * (rs - 1))

/-- One tile of the dump walk (the body of the
`for spec, slot in assignments` loop in `svc_dump_layout`); returns the
updated `render_index` and accumulator. -/
def dumpTile (states : States) (p : Nat) (spec : TileSpec)
    (slot : Option (Nat × String)) (ri : Nat) (acc : DumpAcc) : Nat × DumpAcc :=
  match slot with
  | none => (ri, acc)
  | some (_key, ent) =>
    let (x, y) := dump_cell_xy spec.row spec.col
    let (w, h) := cell_wh spec.rs spec.cs
    if spec.special = some "clock" then
      let y4 := y + 4
      let h8 := h - 8
      (ri, { acc with lines := acc.lines ++
        [s!"\x7b\"page\":{p},\"obj\":\"label\",\"id\":70,\"x\":{x},\"y\":{y4},\"w\":{w},\"h\":{h8},\"text\":\"00:00\",\"template\":\"%H:%M\",\"text_font\":96,\"align\":\"center\",\"text_color\":\"#E5E7EB\",\"bg_opa\":0\x7d"] })
    else
      let base := min ri 9 * 10
      let st_ent := getState states ent
      let label := labelOf st_ent ent
      if spec.special = some "shades" then
        let full_x := (dump_cell_xy spec.row 0).1
        let full_w := (cell_wh 1 3).1
        let full_y := y + (h - 88) / 2
        let b5 := base + 5
        let b6 := base + 6
        let b7 := base + 7
        let lx := full_x + 18
        let ly := full_y + 12
        let lw := full_w - 36
        let mx := full_x + 30
        let my := full_y + 42
        let mw := full_w - 60
        (ri + 1, { acc with lines := acc.lines ++
          [s!"\x7b\"page\":{p},\"obj\":\"obj\",\"id\":{b5},\"x\":{full_x},\"y\":{full_y},\"w\":{full_w},\"h\":88,\"radius\":18,\"bg_color\":\"#0B1220\"\x7d",
           s!"\x7b\"page\":{p},\"obj\":\"label\",\"id\":{b6},\"x\":{lx},\"y\":{ly},\"w\":{lw},\"h\":24,\"text\":\"{label}\",\"text_font\":20,\"text_color\":\"#9CA3AF\",\"bg_opa\":0\x7d",
           s!"\x7b\"page\":{p},\"obj\":\"btnmatrix\",\"id\":{b7},\"x\":{mx},\"y\":{my},\"w\":{mw},\"h\":56,\"text_font\":28,\"options\":[\"Up\",\"Pause\",\"Down\"],\"one_check\":0,\"radius\":12\x7d"] })
      else
        let b1 := base + 1
        let b2 := base + 2
        let b3 := base + 3
        let lx := x + 8
        let ly := y + 6
        let lw := w - 16
        let tileHead :=
          [s!"\x7b\"page\":{p},\"obj\":\"obj\",\"id\":{b1},\"x\":{x},\"y\":{y},\"w\":{w},\"h\":{h},\"radius\":14,\"bg_color\":\"#1E293B\",\"bg_opa\":255,\"click\":false\x7d",
           s!"\x7b\"page\":{p},\"obj\":\"label\",\"id\":{base},\"x\":{lx},\"y\":{ly},\"w\":{lw},\"h\":24,\"text\":\"{label}\",\"text_font\":18,\"text_color\":\"#9CA3AF\",\"bg_opa\":0\x7d"]
        let domain := domainOf ent
        if domain = "switch" ∨ domain = "light" ∨ domain = "fan" then
          let icon := if domain = "fan" then "\\uE4DC" else "\\uE425"
          let bx := x + max 20 ((w - 96) / 2)
          let by0 := y + 36
          let btnLine :=
            s!"\x7b\"page\":{p},\"obj\":\"btn\",\"id\":{b2},\"x\":{bx},\"y\":{by0},\"w\":96,\"h\":72,\"text\":\"{icon}\",\"text_font\":72,\"toggle\":true,\"radius\":14,\"bg_color\":\"#1E293B\",\"bg_opa\":255,\"text_color\":\"#FFFFFF\",\"border_width\":0\x7d"
          let hy := y + h - 36
          let hw := w - 16
          if domain = "fan" then
            let hint :=
              s!"\x7b\"page\":{p},\"obj\":\"label\",\"id\":{b3},\"x\":{lx},\"y\":{hy},\"w\":{hw},\"h\":28,\"text\":\"Tap for speed\",\"text_font\":20,\"align\":\"center\",\"text_color\":\"#9CA3AF\",\"bg_opa\":0,\"click\":false\x7d"
            (ri + 1,
             { lines := acc.lines ++ tileHead ++ [btnLine, hint]
               option_specs := acc.option_specs ++
                 [{ entity := ent, otype := "fan", origin_page := p,
                    page_id := acc.next_option_page, friendly_name := label,
                    trigger_topic := s!"p{p}b{b2}" }]
               next_option_page := acc.next_option_page + 1 })
          else
            let modes :=
              match st_ent with
              | some s => s.supported_color_modes
              | none => []
            if domain = "light" ∧ st_ent.isSome ∧ modes ≠ [] ∧ has_color_modes modes then
              let hint :=
                s!"\x7b\"page\":{p},\"obj\":\"label\",\"id\":{b3},\"x\":{lx},\"y\":{hy},\"w\":{hw},\"h\":28,\"text\":\"Tap for color\",\"text_font\":20,\"align\":\"center\",\"text_color\":\"#9CA3AF\",\"bg_opa\":0,\"click\":false\x7d"
              (ri + 1,
               { lines := acc.lines ++ tileHead ++ [btnLine, hint]
                 option_specs := acc.option_specs ++
                   [{ entity := ent, otype := "light_color", origin_page := p,
                      page_id := acc.next_option_page, friendly_name := label,
                      trigger_topic := s!"p{p}b{b2}" }]
                 next_option_page := acc.next_option_page + 1 })
            else
              (ri + 1, { acc with lines := acc.lines ++ tileHead ++ [btnLine] })
        else
          let val := stateValOr st_ent "--"
          let bx := x + max 20 ((w - 88) / 2)
          let by0 := y + 40
          (ri + 1, { acc with lines := acc.lines ++ tileHead ++
            [s!"\x7b\"page\":{p},\"obj\":\"btn\",\"id\":{b2},\"x\":{bx},\"y\":{by0},\"w\":88,\"h\":64,\"text\":\"{val}\",\"text_font\":20,\"toggle\":false,\"bg_opa\":0,\"border_width\":0,\"radius\":0\x7d"] })

/-- Fold of `dumpTile` over the assignment list (`render_index` starts at 1). -/
def dumpTiles (states : States) (p : Nat)
    (asgs : List (TileSpec × Option (Nat × String))) (ri : Nat) (acc : DumpAcc) :
    DumpAcc :=
  match asgs with
  | [] => acc
  | (spec, slot) :: rest =>
    let r := dumpTile states p spec slot ri acc
    dumpTiles states p rest r.1 r.2

/-- One content page of the dump (page definition, background, tiles). -/
def dumpPage (states : States) (ring : List Nat) (pe : PageEntry)
    (acc : DumpAcc) : DumpAcc :=
  let p := pe.page_order
  let pv := pprev ring p
  let nx := pnext ring p
  let acc := { acc with lines := acc.lines ++
    [s!"\x7b\"page\":{p},\"id\":0,\"obj\":\"page\",\"prev\":{pv},\"next\":{nx}\x7d",
     s!"\x7b\"page\":{p},\"obj\":\"obj\",\"id\":80,\"x\":0,\"y\":0,\"w\":480,\"h\":480,\"bg_color\":\"#0B1220\",\"bg_opa\":255,\"click\":false\x7d"] }
  dumpTiles states p (buildAssignments pe) 1 acc

/-- Source `_emit_option_pages` inside `svc_dump_layout`. -/
def dumpOptionPage (spec : OptionSpec) : List String :=
  let page_id := spec.page_id
  let origin := spec.origin_page
  let friendly := spec.friendly_name
  let head :=
    [s!"\x7b\"page\":{page_id},\"id\":0,\"obj\":\"page\",\"prev\":{origin},\"next\":{origin}\x7d",
     s!"\x7b\"page\":{page_id},\"obj\":\"obj\",\"id\":10,\"x\":0,\"y\":0,\"w\":480,\"h\":480,\"bg_color\":\"#0B1220\",\"bg_opa\":255,\"click\":false\x7d",
     s!"\x7b\"page\":{page_id},\"obj\":\"label\",\"id\":11,\"x\":24,\"y\":24,\"w\":432,\"h\":48,\"text\":\"{friendly}\",\"text_font\":36,\"align\":\"center\",\"text_color\":\"#E5E7EB\",\"bg_opa\":0\x7d",
     s!"\x7b\"page\":{page_id},\"obj\":\"btn\",\"id\":190,\"x\":360,\"y\":24,\"w\":96,\"h\":48,\"text\":\"Close\",\"text_font\":24,\"radius\":12,\"bg_color\":\"#1F2937\",\"text_color\":\"#FFFFFF\",\"border_width\":0\x7d"]
  if spec.otype = "fan" then
    head ++
    [s!"\x7b\"page\":{page_id},\"obj\":\"label\",\"id\":40,\"x\":24,\"y\":96,\"w\":432,\"h\":36,\"text\":\"--\",\"text_font\":28,\"align\":\"center\",\"text_color\":\"#9CA3AF\",\"bg_opa\":0\x7d",
     s!"\x7b\"page\":{page_id},\"obj\":\"btnmatrix\",\"id\":60,\"x\":72,\"y\":168,\"w\":336,\"h\":144,\"text_font\":32,\"options\":[\"Off\",\"Low\",\"Med\",\"High\"],\"toggle\":1,\"one_check\":1,\"val\":0,\"radius\":16\x7d"]
  else if spec.otype = "light_color" then
    let colors : List (String × String) :=
      [("#FFFFFF", "White"), ("#FF0000", "Red"), ("#00FF00", "Green"),
       ("#0000FF", "Blue"), ("#FDE68A", "Warm"), ("#D0E1FF", "Cool")]
    head ++
    [s!"\x7b\"page\":{page_id},\"obj\":\"btn\",\"id\":40,\"x\":168,\"y\":108,\"w\":144,\"h\":72,\"text\":\"Power\",\"text_font\":30,\"toggle\":1,\"radius\":14,\"bg_color\":\"#1E293B\",\"bg_opa\":255,\"text_color\":\"#FFFFFF\",\"border_width\":0\x7d"] ++
    (colors.enum.map (fun (idx, hexcol, label_text) =>
      let btn_id := 80 + idx
      let cx := 72 + (idx % 3) * (96 + 24)
      let cy := 216 + (idx / 3) * (96 + 40)
      s!"\x7b\"page\":{page_id},\"obj\":\"btn\",\"id\":{btn_id},\"x\":{cx},\"y\":{cy},\"w\":96,\"h\":96,\"radius\":16,\"bg_color\":\"{hexcol}\",\"text\":\"{label_text}\",\"text_font\":22,\"bg_grad_dir\":\"none\",\"border_width\":0\x7d"))
  else head

/-- The page walk of `svc_dump_layout`: header/footer and page-1 link,
then every sorted page entry, accumulating lines and option specs. -/
def dumpAccOf (cfg : PanelCfg) (states : States) : DumpAcc :=
  let tval :=
    if cfg.temp_entity = "" then "--"
    else stateValOr (getState states cfg.temp_entity) "--"
  let home := _home_layout_lines cfg.node_name cfg.home_title tval
  let ring := pages_ring cfg
  let homeNav :=
    match homeLink cfg with
    | none => []
    | some (pv, nx) =>
      [s!"\x7b\"page\":1,\"id\":0,\"obj\":\"page\",\"prev\":{pv},\"next\":{nx}\x7d"]
  let acc0 : DumpAcc := { lines := home ++ homeNav, option_specs := [], next_option_page := 50 }
  (sortPages cfg.pages).foldl (fun a pe => dumpPage states ring pe a) acc0

/-- The pure core of `svc_dump_layout`: the ordered JSONL line list it
writes to the export file (header/footer, page-1 link, pages, then
option pages). -/
def dump_layout_lines (cfg : PanelCfg) (states : States) : List String :=
  let acc := dumpAccOf cfg states
  acc.lines ++ acc.option_specs.flatMap dumpOptionPage


/-! ## Python `int(s, 16)` and icon-code selection -/

def isHexDigitCh (c : Char) : Bool :=
  c.isDigit || ('a' ≤ c && c ≤ 'f') || ('A' ≤ c && c ≤ 'F')

def hexVal (c : Char) : Nat :=
  if c.isDigit then c.toNat - 48
  else if 'a' ≤ c && c ≤ 'f' then c.toNat - 87
  else c.toNat - 55

/-- Hex-digit run with Python underscore grouping: an underscore must sit
between two digits. The head is checked by `parseHexDigits`. -/
def parseHexRun : List Char → Nat → Option Nat
  | [], acc => some acc
  | '_' :: rest, acc =>
    match rest with
    | c :: _ => if isHexDigitCh c then parseHexRun rest acc else none
    | [] => none
  | c :: rest, acc =>
    if isHexDigitCh c then parseHexRun rest (acc * 16 + hexVal c) else none

def parseHexDigits (cs : List Char) : Option Nat :=
  match cs with
  | [] => none
  | c :: _ => if isHexDigitCh c then parseHexRun cs 0 else none

/-- Python `int(s, 16)`: optional surrounding whitespace, optional sign,
optional `0x`/`0X` prefix (an extra underscore may follow the prefix),
then underscore-grouped hex digits; `none` models `ValueError`. -/
def pyIntHex16 (s : String) : Option Int :=
  let cs0 := trimChars s.toList
  let signed :=
    match cs0 with
    | '+' :: r => (false, r)
    | '-' :: r => (true, r)
    | r => (false, r)
  let cs := signed.2
  let core : Option Nat :=
    match cs with
    | '0' :: x :: r =>
      if x = 'x' ∨ x = 'X' then
        match r with
        | '_' :: r2 => parseHexDigits r2
        | _ => parseHexDigits r
      else parseHexDigits cs
    | _ => parseHexDigits cs
  core.map (fun n => if signed.1 then -(n : Int) else (n : Int))

/-- Icon selection in `_publish_page_num` (lines 537-543):
`pe.options.get(f"{key}_icon") or ("E210" if domain == "fan" else "E425")`,
then `int(icon_code, 16)` guarded by `except: icon_code = "E425"`. -/
def icon_code_of (iconOpt : Option String) (domain : String) : String :=
  let icon_code := pyOr iconOpt (if domain = "fan" then "E210" else "E425")
  match pyIntHex16 icon_code with
  | some _ => icon_code
  | none => "E425"

/-! ## Runtime metadata records -/

/-- Values stored in `matrix_map`. Only `cover_cmd`, `fan_select` and
`light_color` are ever constructed by the current code (the deprecated
`light_dim`/`fan_preset`/`fan_pct` types are matched in the router but
never created, and their arms are `pass`). -/
inductive MatrixMeta where
  | cover_cmd (entity : String)
  | fan_select (entity : String)
  | light_color (entity : String) (btn_id : Option Nat)
deriving Repr, DecidableEq

/-- Service payload of a color chip (`rgb_color` or `color_temp_kelvin`). -/
inductive LightPayload where
  | rgb (r g b : Nat)
  | kelvin (k : Nat)
deriving Repr, DecidableEq

structure ColorMeta where
  entity : String
  payload : LightPayload
  main_btn : Nat
deriving Repr, DecidableEq

structure CloseMeta where
  return_page : Nat
  entity : String
deriving Repr, DecidableEq

/-- One MQTT publish of the publish path, keeping the topic structure
(page, widget id) and the payload fields the claims refer to; purely
cosmetic style attributes of the JSONL payloads are not repeated here
(they are modelled verbatim in the dump embedding above). -/
inductive PubItem where
  | clearpage (arg : String)
  | jsonlPage (page prev next : Nat)
  | jsonlObj (page id : Nat)
  | jsonlLabel (page id : Nat) (text : String)
  | jsonlBtn (page id : Nat) (text : String)
  | jsonlBtnMatrix (page id : Nat) (options : List String)
  | jsonlRaw (line : String)
deriving Repr, DecidableEq

/-- The per-panel `hass.data[DOMAIN][entry.entry_id]` slice used by the
publisher and the event router. -/
structure PanelStore where
  ctrl_map : List (String × String) := []
  sensor_map : List (String × List (Nat × Nat)) := []
  matrix_map : List (String × MatrixMeta) := []
  ent_toggle_map : List (String × List (Nat × Nat)) := []
  ent_matrix_map : List (String × List (Nat × Nat × MatrixMeta)) := []
  color_btn_map : List (String × ColorMeta) := []
  fan_status_map : List (String × List (Nat × String × Nat)) := []
  option_specs : List OptionSpec := []
  option_open_map : List (String × OptionSpec) := []
  option_close_map : List (String × CloseMeta) := []
  option_page_titles : List (Nat × String) := []
  option_return_map : List (Nat × Nat) := []
  popup_overlay_targets : List (Nat × List (String × Nat)) := []
  popup_map : List (String × Nat) := []
  popup_cooldown_until : Int := 0
  current_page : Nat := 1
deriving Repr, DecidableEq

/-- The local dict collection built from scratch inside `_publish_all`
and passed by reference into `_publish_page_num`/`_publish_option_pages`. -/
structure Maps where
  ctrl_map : List (String × String) := []
  sensor_map : List (String × List (Nat × Nat)) := []
  matrix_map : List (String × MatrixMeta) := []
  ent_toggle_map : List (String × List (Nat × Nat)) := []
  ent_matrix_map : List (String × List (Nat × Nat × MatrixMeta)) := []
  color_btn_map : List (String × ColorMeta) := []
  fan_status_map : List (String × List (Nat × String × Nat)) := []
  option_specs : List OptionSpec := []
  option_open_map : List (String × OptionSpec) := []
  option_close_map : List (String × CloseMeta) := []
  option_page_titles : List (Nat × String) := []
  next_option_page : Nat := 50
deriving Repr, DecidableEq

/-! ## `_publish_page_num` -/

/-- Tile body of the `for spec, slot in assignments` loop in
`_publish_page_num` (lines 500-633). Returns the new `render_index`,
the updated maps and the published items, in publish order. The
misplaced `ctrl_map` assignment guarded by `if option_spec is None`
(lines 627-629) sits inside the `elif domain == "cover"` branch, and is
reproduced there. -/
def publishTile (states : States) (p : Nat) (pe : PageEntry) (layout : String)
    (spec : TileSpec) (slot : Option (Nat × String)) (ri : Nat) (ms : Maps) :
    Nat × Maps × List PubItem :=
  match slot with
  | none => (ri, ms, [])
  | some (key, ent) =>
    if spec.special = some "clock" then
      (ri, ms, [.jsonlLabel p 70 "00:00"])
    else
      let base3 := min ri 9 * 10
      let st_ent := getState states ent
      let label := labelOf st_ent ent
      if spec.special = some "shades" then
        let mid := base3 + 7
        let mi := MatrixMeta.cover_cmd ent
        (ri + 1,
         { ms with
             matrix_map := insertKV ms.matrix_map s!"p{p}m{mid}" mi
             ent_matrix_map := appendKV ms.ent_matrix_map ent (p, mid, mi) },
         [.jsonlObj p (base3 + 5), .jsonlLabel p (base3 + 6) label,
          .jsonlBtnMatrix p mid ["Up", "Pause", "Down"]])
      else
        let head : List PubItem :=
          [.jsonlObj p (base3 + 1), .jsonlLabel p base3 label]
        let domain := domainOf ent
        if domain = "switch" ∨ domain = "light" ∨ domain = "fan" then
          let icon_code := icon_code_of (pe.slotIcons.getD (key - 1) none) domain
          let iconText := "\\u" ++ icon_code
          let toggleBtn : PubItem := .jsonlBtn p (base3 + 2) iconText
          let ms := { ms with
            ent_toggle_map := appendKV ms.ent_toggle_map ent (p, base3 + 2) }
          let modes :=
            match st_ent with
            | some s => s.supported_color_modes
            | none => []
          let has_color := has_color_modes modes
          if domain = "fan" then
            let opt_page := ms.next_option_page
            let trigger_btn_id := base3 + 4
            let option_spec : OptionSpec :=
              { entity := ent, otype := "fan", origin_page := p,
                page_id := opt_page, friendly_name := label,
                trigger_topic := s!"p{p}b{trigger_btn_id}" }
            let status_id := base3 + 3
            (ri + 1,
             { ms with
                 next_option_page := ms.next_option_page + 1
                 option_specs := ms.option_specs ++ [option_spec]
                 option_open_map :=
                   insertKV ms.option_open_map option_spec.trigger_topic option_spec
                 fan_status_map :=
                   appendKV ms.fan_status_map ent (p, "l", status_id) },
             head ++ [toggleBtn, .jsonlLabel p status_id "Tap for speed",
                      .jsonlBtn p trigger_btn_id ""])
          else if domain = "light" ∧ has_color then
            let opt_page := ms.next_option_page
            let option_spec : OptionSpec :=
              { entity := ent, otype := "light_color", origin_page := p,
                page_id := opt_page, friendly_name := label,
                trigger_topic := s!"p{p}b{base3 + 4}" }
            let hint_id := base3 + 3
            (ri + 1,
             { ms with
                 next_option_page := ms.next_option_page + 1
                 option_specs := ms.option_specs ++ [option_spec]
                 option_open_map :=
                   insertKV ms.option_open_map option_spec.trigger_topic option_spec },
             head ++ [toggleBtn, .jsonlLabel p hint_id "Tap for color",
                      .jsonlBtn p (base3 + 4) ""])
          else
            (ri + 1, ms, head ++ [toggleBtn])
        else if domain = "cover" ∧ layout = "shades_row" then
          let mid := base3 + 7
          let mi := MatrixMeta.cover_cmd ent
          let option_spec : Option OptionSpec := none
          let ms := { ms with
            matrix_map := insertKV ms.matrix_map s!"p{p}m{mid}" mi
            ent_matrix_map := appendKV ms.ent_matrix_map ent (p, mid, mi) }
          let ms :=
            if option_spec.isNone then
              { ms with ctrl_map := insertKV ms.ctrl_map s!"p{p}b{base3 + 2}" ent }
            else ms
          (ri + 1, ms,
           head ++ [.jsonlObj p (base3 + 5), .jsonlLabel p (base3 + 6) label,
                    .jsonlBtnMatrix p mid ["Up", "Pause", "Down"]])
        else
          let val := stateValOr st_ent "--"
          (ri + 1,
           { ms with sensor_map := appendKV ms.sensor_map ent (p, base3 + 2) },
           head ++ [.jsonlBtn p (base3 + 2) val])

def publishTiles (states : States) (p : Nat) (pe : PageEntry) (layout : String)
    (asgs : List (TileSpec × Option (Nat × String))) (ri : Nat) (ms : Maps) :
    Maps × List PubItem :=
  match asgs with
  | [] => (ms, [])
  | (spec, slot) :: rest =>
    let r := publishTile states p pe layout spec slot ri ms
    let rr := publishTiles states p pe layout rest r.1 r.2.1
    (rr.1, r.2.2 ++ rr.2)

/-- The fixed hidden-modal prebuild of `_publish_page_num`
(ids 193-197) and its `popup_overlay_targets` entry. -/
def modalTargets : List (String × Nat) :=
  [("b", 193), ("o", 194), ("l", 195), ("m", 196), ("b", 197)]

/-- Embedding of `_publish_page_num`: page definition, background, the
hidden modal (registered in `popup_overlay_targets`/`popup_map` via
`setdefault` on the persistent store), then the tile walk. -/
def _publish_page_num (cfg : PanelCfg) (states : States) (p : Nat)
    (pe : PageEntry) (ms : Maps)
    (popupTargets : List (Nat × List (String × Nat)))
    (popupMap : List (String × Nat)) :
    Maps × List PubItem × List (Nat × List (String × Nat)) × List (String × Nat) :=
  let ring := pages_ring cfg
  let pv := pprev ring p
  let nx := pnext ring p
  let headItems : List PubItem :=
    [.clearpage (toString p), .jsonlPage p pv nx, .jsonlObj p 80,
     .jsonlBtn p 193 "", .jsonlObj p 194, .jsonlLabel p 195 "",
     .jsonlBtnMatrix p 196 ["Off"], .jsonlBtn p 197 "Close"]
  let popupTargets' := insertN popupTargets p modalTargets
  let popupMap' := insertKV (insertKV popupMap s!"p{p}b193" p) s!"p{p}b197" p
  let layout := effectiveLayout pe
  let r := publishTiles states p pe layout (buildAssignments pe) 1 ms
  (r.1, headItems ++ r.2, popupTargets', popupMap')

/-! ## `_publish_option_pages` -/

def colorChips : List (String × LightPayload × String) :=
  [("#FFFFFF", .rgb 255 255 255, "White"),
   ("#FF0000", .rgb 255 0 0, "Red"),
   ("#00FF00", .rgb 0 255 0, "Green"),
   ("#0000FF", .rgb 0 0 255, "Blue"),
   ("#FDE68A", .kelvin 2700, "Warm"),
   ("#D0E1FF", .kelvin 6500, "Cool")]

/-- One iteration of the `for spec in option_specs` loop of
`_publish_option_pages`. -/
def publishOptionPage (spec : OptionSpec) (ms : Maps) : Maps × List PubItem :=
  let page_id := spec.page_id
  let origin := spec.origin_page
  let entity := spec.entity
  let friendly := spec.friendly_name
  let ms := { ms with
    option_page_titles := insertN ms.option_page_titles page_id (friendly ++ " Options") }
  let head : List PubItem :=
    [.clearpage (toString page_id), .jsonlPage page_id origin origin,
     .jsonlObj page_id 10, .jsonlLabel page_id 11 friendly,
     .jsonlBtn page_id 190 "Close"]
  let ms := { ms with
    option_close_map := insertKV ms.option_close_map s!"p{page_id}b190"
      { return_page := origin, entity := entity } }
  if spec.otype = "fan" then
    let meta := MatrixMeta.fan_select entity
    ({ ms with
        fan_status_map := appendKV ms.fan_status_map entity (page_id, "l", 40)
        matrix_map := insertKV ms.matrix_map s!"p{page_id}m60" meta
        ent_matrix_map := appendKV ms.ent_matrix_map entity (page_id, 60, meta) },
     head ++ [.jsonlLabel page_id 40 "--",
              .jsonlBtnMatrix page_id 60 ["Off", "Low", "Med", "High"]])
  else if spec.otype = "light_color" then
    let ms := { ms with
      ctrl_map := insertKV ms.ctrl_map s!"p{page_id}b40" entity
      ent_toggle_map := appendKV ms.ent_toggle_map entity (page_id, 40) }
    let chips := colorChips.enum
    let ms := chips.foldl (fun m (pr : Nat × String × LightPayload × String) =>
      let idx := pr.1
      let payload := pr.2.2.1
      let key := s!"p{page_id}b{80 + idx}"
      let cm : ColorMeta := { entity := entity, payload := payload, main_btn := 40 }
      { m with color_btn_map := insertKV m.color_btn_map key cm }) ms
    (ms,
     head ++ [.jsonlBtn page_id 40 "Power"] ++
       chips.map (fun pr => .jsonlBtn page_id (80 + pr.1) pr.2.2.2))
  else (ms, head)

def publishOptionPages (specs : List OptionSpec) (ms : Maps) : Maps × List PubItem :=
  match specs with
  | [] => (ms, [])
  | spec :: rest =>
    let r := publishOptionPage spec ms
    let rr := publishOptionPages rest r.1
    (rr.1, r.2 ++ rr.2)

/-! ## `_publish_all` -/

/-- Page fold of `_publish_all` over the sorted page entries. -/
def publishPagesFold (cfg : PanelCfg) (states : States)
    (pes : List PageEntry) (ms : Maps)
    (popupTargets : List (Nat × List (String × Nat)))
    (popupMap : List (String × Nat)) :
    Maps × List PubItem × List (Nat × List (String × Nat)) × List (String × Nat) :=
  match pes with
  | [] => (ms, [], popupTargets, popupMap)
  | pe :: rest =>
    let r := _publish_page_num cfg states pe.page_order pe ms popupTargets popupMap
    let rr := publishPagesFold cfg states rest r.1 r.2.2.1 r.2.2.2
    (rr.1, r.2.1 ++ rr.2.1, rr.2.2.1, rr.2.2.2)

/-- Embedding of `_publish_all`: clears the device, pushes the home
block, publishes every configured page and the collected option pages,
and replaces the runtime maps stored on the panel store. The
`popup_overlay_targets`/`popup_map` dicts are the only ones updated via
`setdefault` on the persistent store rather than rebuilt. The
state-listener rewiring and initial `_sync_entity_state` publishes that
follow in the source do not touch the stored maps and are not modelled. -/
def _publish_all (st : PanelStore) (cfg : PanelCfg) (states : States) :
    PanelStore × List PubItem :=
  let tval :=
    if cfg.temp_entity = "" then "--"
    else stateValOr (getState states cfg.temp_entity) "--"
  let homeItems : List PubItem :=
    [.clearpage "all"] ++
      (_home_layout_lines cfg.node_name cfg.home_title tval).map .jsonlRaw
  let navItems : List PubItem :=
    match homeLink cfg with
    | none => []
    | some (pv, nx) => [.jsonlPage 1 pv nx]
  let pr :=
    publishPagesFold cfg states (sortPages cfg.pages) {} st.popup_overlay_targets st.popup_map
  let ms := pr.1
  let pageItems := pr.2.1
  let pt' := pr.2.2.1
  let pm' := pr.2.2.2
  let pr2 := publishOptionPages ms.option_specs ms
  let ms' := pr2.1
  let optItems := pr2.2
  let st' : PanelStore :=
    { st with
        ctrl_map := ms'.ctrl_map
        sensor_map := ms'.sensor_map
        matrix_map := ms'.matrix_map
        ent_toggle_map := ms'.ent_toggle_map
        ent_matrix_map := ms'.ent_matrix_map
        color_btn_map := ms'.color_btn_map
        fan_status_map := ms'.fan_status_map
        option_specs := ms'.option_specs
        option_open_map := ms'.option_open_map
        option_close_map := ms'.option_close_map
        option_page_titles := ms'.option_page_titles
        option_return_map := ms'.option_specs.map (fun s => (s.page_id, s.origin_page))
        popup_overlay_targets := pt'
        popup_map := pm' }
  (st', homeItems ++ navItems ++ pageItems ++ optItems)

/-! ## The touch-event router (`_state_event`) -/

/-- Extra data of a service call. -/
inductive SvcData where
  | noData
  | rgbData (r g b : Nat)
  | kelvinData (k : Nat)
  | percentageData (pct : Nat)
deriving Repr, DecidableEq

/-- Observable side effects of one `_state_event` invocation: MQTT
publishes, host service calls and created tasks (`_sync_entity_state`
and `_publish_all` run asynchronously and are recorded as task
markers). -/
inductive Effect where
  | publish (topic payload : String)
  | serviceCall (domain service entity : String) (data : SvcData)
  | syncEntity (entity : String)
  | publishAllTask
deriving Repr, DecidableEq

def removeKV {α : Type} (m : List (String × α)) (k : String) : List (String × α) :=
  m.filter (fun p => !(p.1 == k))

/-- Effects hiding every registered popup-overlay element of page `pg`. -/
def hideTargets (node : String) (targets : List (String × Nat)) (pg : Nat) :
    List Effect :=
  targets.map (fun t => .publish s!"hasp/{node}/command/p{pg}{t.1}{t.2}.hidden" "1")

/-- Widget-topic parse of the overlay-consume step (lines 996-1008):
leading `p`, a digit run, one type character, optionally a numeric id. -/
def parseWidgetTopic (tail : String) : Option (Nat × String × Option Nat) :=
  match tail.toList with
  | 'p' :: s =>
    let digits := s.takeWhile Char.isDigit
    let i := digits.length
    if 0 < i ∧ i < s.length then
      let pnum := parseNat digits
      let tchar := String.mk [(s.drop i).headD ' ']
      let rest := s.drop (i + 1)
      let oid := if pyIsDigit rest then some (parseNat rest) else none
      some (pnum, tchar, oid)
    else none
  | _ => none

/-- Page parse `int(topic_tail.split("m")[0].replace("p", ""))` with the
`except: p = 1` fallback (and its `"b"` variant for color chips). -/
def pageFromTail (tail : String) (sep : Char) : Option Nat :=
  let s0 := tail.toList.takeWhile (fun c => !(c == sep))
  let s1 := s0.filter (fun c => !(c == 'p'))
  if pyIsDigit s1 then some (parseNat s1) else none

/-- Source `pct_map = {0: 0, 1: 33, 2: 66, 3: 100}` with
`pct_map.get(int(val), 0)`. -/
def pct_map (v : Int) : Nat :=
  if v = 0 then 0 else if v = 1 then 33 else if v = 2 then 66
  else if v = 3 then 100 else 0

/-- Close a popup on page `pg`: hide its registered overlay elements,
clear the bookkeeping (including the transient `p<pg>m196` matrix
entry) and start the 0.35 s cooldown. The monotonic clock is modelled
in integer milliseconds, so the source's `+ 0.35` (seconds) is
`+ 350`. -/
def closePopup (node : String) (st : PanelStore) (pg : Nat) (now : Int) :
    PanelStore × List Effect :=
  let targets := (lookupN st.popup_overlay_targets pg).getD []
  let st' := { st with
    popup_overlay_targets := insertN st.popup_overlay_targets pg []
    matrix_map := removeKV st.matrix_map s!"p{pg}m196"
    popup_cooldown_until := now + 350 }
  (st', hideTargets node targets pg)

/-- The overlay-consume step (lines 995-1028): when a popup overlay is
registered on the tapped page and the tapped widget is not part of it,
the tap only closes the overlay. -/
def consumeCheck (node : String) (st : PanelStore) (tail : String) (now : Int) :
    Option (PanelStore × List Effect) :=
  match parseWidgetTopic tail with
  | some (pnum, tchar, oid) =>
    let targets := (lookupN st.popup_overlay_targets pnum).getD []
    let isTarget :=
      match oid with
      | some o => targets.contains (tchar, o)
      | none => false
    if targets ≠ [] ∧ isTarget = false then some (closePopup node st pnum now)
    else none
  | none => none

/-- The `event == "up"` routing chain (lines 971-1173). `.inl` models a
`return` from `_state_event`; `.inr effs` models falling through to the
matrix/page/long blocks with `effs` already emitted (the relay and
`ctrl_map` paths do not return). The popup-open machinery (lines
1053-1107) is unreachable: `popup_map` only ever receives
`close_popup` entries (lines 456-457), so it is not modelled. -/
def routeUp (node : String) (st : PanelStore) (tail : String) (val : Int)
    (now : Int) : (PanelStore × List Effect) ⊕ List Effect :=
  if now < st.popup_cooldown_until then .inl (st, [])
  else
    match lookupKV st.option_close_map tail with
    | some oc =>
      .inl (st, [.publish s!"hasp/{node}/command/page" (toString oc.return_page)] ++
        (if oc.entity ≠ "" then [.syncEntity oc.entity] else []))
    | none =>
    match lookupKV st.option_open_map tail with
    | some oo =>
      .inl (st, [.publish s!"hasp/{node}/command/page" (toString oo.page_id)] ++
        (if oo.entity ≠ "" then [.syncEntity oo.entity] else []))
    | none =>
    match consumeCheck node st tail now with
    | some r => .inl r
    | none =>
    match lookupKV st.popup_map tail with
    | some pg => .inl (closePopup node st pg now)
    | none =>
    let onoff := if val = 1 then "\x7b\"state\":\"on\"\x7d" else "\x7b\"state\":\"off\"\x7d"
    if tail = "p1b112" then .inr [.publish s!"hasp/{node}/command/output1" onoff]
    else if tail = "p1b122" then .inr [.publish s!"hasp/{node}/command/output2" onoff]
    else if tail = "p1b132" then .inr [.publish s!"hasp/{node}/command/output40" onoff]
    else
      match lookupKV st.color_btn_map tail with
      | some cmeta =>
        let callEff : Effect :=
          match cmeta.payload with
          | .rgb r g b => .serviceCall "light" "turn_on" cmeta.entity (.rgbData r g b)
          | .kelvin k => .serviceCall "light" "turn_on" cmeta.entity (.kelvinData k)
        let mainEffs :=
          match pageFromTail tail 'b' with
          | some pnum =>
            if cmeta.main_btn ≠ 0 then
              [Effect.publish s!"hasp/{node}/command/p{pnum}b{cmeta.main_btn}.val" "1"]
            else []
          | none => []
        .inl (st, [callEff] ++ mainEffs)
      | none =>
        let ctrlEffs : List Effect :=
          match lookupKV st.ctrl_map tail with
          | some ent =>
            let domain := domainOf ent
            if domain = "switch" then
              [.serviceCall "switch" (if val = 1 then "turn_on" else "turn_off") ent .noData]
            else if domain = "light" then
              [.serviceCall "light" (if val = 1 then "turn_on" else "turn_off") ent .noData]
            else if domain = "fan" then
              [.serviceCall "fan" (if val = 1 then "turn_on" else "turn_off") ent .noData]
            else []
          | none => []
        match lookupKV st.popup_map tail with
        | some pg =>
          let (st', effs) := closePopup node st pg now
          .inl (st', ctrlEffs ++ effs)
        | none => .inr ctrlEffs

/-- The matrix block (lines 1174-1249): `fan_select`/`light_color`/
`cover_cmd` dispatch for `up`/`changed` events. -/
def routeMatrix (node : String) (st : PanelStore) (tail : String) (val : Int) :
    List Effect :=
  match lookupKV st.matrix_map tail with
  | none => []
  | some m =>
    match m with
    | .cover_cmd ent =>
      let svc := if val = 0 then "open_cover" else if val = 1 then "stop_cover"
        else "close_cover"
      [.serviceCall "cover" svc ent .noData]
    | .fan_select ent =>
      let pct := pct_map val
      let callEff : Effect :=
        if pct = 0 then .serviceCall "fan" "turn_off" ent .noData
        else .serviceCall "fan" "set_percentage" ent (.percentageData pct)
      let p := (pageFromTail tail 'm').getD 1
      let targets := (lookupN st.popup_overlay_targets p).getD []
      [callEff] ++ hideTargets node targets p
    | .light_color ent btn_id =>
      let sel :
          Effect × Option String :=
        if val = 0 then (.serviceCall "light" "turn_off" ent .noData, none)
        else if val = 1 then
          (.serviceCall "light" "turn_on" ent (.rgbData 255 0 0), some "#FF0000")
        else if val = 2 then
          (.serviceCall "light" "turn_on" ent (.rgbData 0 255 0), some "#00FF00")
        else if val = 3 then
          (.serviceCall "light" "turn_on" ent (.rgbData 0 0 255), some "#0000FF")
        else if val = 4 then
          (.serviceCall "light" "turn_on" ent (.kelvinData 2700), some "#FFD8A8")
        else (.serviceCall "light" "turn_on" ent (.kelvinData 6500), some "#D0E1FF")
      let p := (pageFromTail tail 'm').getD 1
      let tintEffs :=
        match btn_id with
        | some bid =>
          if bid ≠ 0 then
            match sel.2 with
            | some hex =>
              [Effect.publish s!"hasp/{node}/command/p{p}b{bid}.text_color" hex,
               Effect.publish s!"hasp/{node}/command/p{p}b{bid}.val" "1"]
            | none =>
              [Effect.publish s!"hasp/{node}/command/p{p}b{bid}.text_color" "#FFFFFF",
               Effect.publish s!"hasp/{node}/command/p{p}b{bid}.val" "0"]
          else []
        | none => []
      let targets := (lookupN st.popup_overlay_targets p).getD []
      [sel.1] ++ tintEffs ++ hideTargets node targets p

/-- The page-change block (lines 1250-1271): track the current page,
push the resolved title to the header and defensively hide overlay
remnants. -/
def routePage (node : String) (cfg : PanelCfg) (st : PanelStore) (raw : String) :
    PanelStore × List Effect :=
  if pyIsDigit raw.toList then
    let p := parseNat raw.toList
    let st' := { st with current_page := p }
    let title :=
      match lookupN st.option_page_titles p with
      | some t => t
      | none =>
        if p = 1 then cfg.home_title
        else
          match cfg.pages.find? (fun pe => pe.page_order == p) with
          | some pe => pe.title.getD s!"Page {p}"
          | none => s!"Page {p}"
    let targets := (lookupN st'.popup_overlay_targets p).getD []
    (st', [.publish s!"hasp/{node}/command/p0b2.text" title] ++
      hideTargets node targets p)
  else (st, [])

/-- Embedding of the `_state_event` callback. `tail` is the last topic
segment, `event`/`val` are `data.get("event","")`/`data.get("val",-1)`
when the JSON payload is a dict (`""`/`-1` otherwise), `raw` is the
raw payload string and `now` is `time.monotonic()`. -/
def _state_event (node : String) (cfg : PanelCfg) (st : PanelStore)
    (tail : String) (event : String) (val : Int) (raw : String) (now : Int) :
    PanelStore × List Effect :=
  let upRes : (PanelStore × List Effect) ⊕ List Effect :=
    if event = "up" then routeUp node st tail val now else .inr []
  match upRes with
  | .inl r => r
  | .inr effs0 =>
    let matrixEffs :=
      if strStartsWith tail "p" ∧ strIn "m" tail ∧ (event = "up" ∨ event = "changed")
      then routeMatrix node st tail val else []
    let (st', pageEffs) :=
      if tail = "page" then routePage node cfg st raw else (st, [])
    let longEffs : List Effect :=
      if tail = "p0b2" ∧ event = "long" then [.publishAllTask] else []
    (st', effs0 ++ matrixEffs ++ pageEffs ++ longEffs)

/-! ## Component-level services (`async_setup`) -/

/-- Externally visible outcome of one service invocation: nothing but a
log line, an async publish task, a config-entry option update, or the
debug-file write. -/
inductive SvcOutcome where
  | noop
  | publishAllFor (entry_id : String)
  | publishHomeFor (entry_id : String)
  | setOption (entry_id field value : String)
  | dumpFileFor (entry_id : String)
deriving Repr, DecidableEq

/-- A registered config entry as the services read it. -/
structure EntryInfo where
  entry_id : String
  role : String
  node_name : String := "Dash"
deriving Repr, DecidableEq

/-- Source `_pick_entry_id`: an explicit `entry_id` wins (`if eid:`, so
`""` is falsy); otherwise exactly one registered publisher is required,
and `next(iter(publishers.keys()))` returns it. -/
def _pick_entry_id (callEntryId : Option String) (publishers : List String) :
    Option String :=
  let eid : Option String :=
    match callEntryId with
    | some e => if e = "" then none else some e
    | none => none
  match eid with
  | some e => some e
  | none => if publishers.length = 1 then publishers.head? else none

/-- Source `svc_publish_all` (publishers are registered with both
callables present, so `pub.get("publish_all")` is membership). -/
def svc_publish_all (callEntryId : Option String) (publishers : List String) :
    SvcOutcome :=
  match _pick_entry_id callEntryId publishers with
  | none => .noop
  | some eid => if publishers.contains eid then .publishAllFor eid else .noop

def svc_publish_home (callEntryId : Option String) (publishers : List String) :
    SvcOutcome :=
  match _pick_entry_id callEntryId publishers with
  | none => .noop
  | some eid => if publishers.contains eid then .publishHomeFor eid else .noop

/-- Source `svc_set_home_title`: resolve the entry, then persist
`title or entry.data.get("node_name", "Dash")` as `home_title`. -/
def svc_set_home_title (callEntryId : Option String) (publishers : List String)
    (entries : List EntryInfo) (home_title : String) : SvcOutcome :=
  match _pick_entry_id callEntryId publishers with
  | none => .noop
  | some eid =>
    match entries.find? (fun e => e.entry_id == eid) with
    | none => .noop
    | some e =>
      let title := pyStrip home_title
      .setOption eid "home_title" (if title = "" then e.node_name else title)

def svc_set_temp_entity (callEntryId : Option String) (publishers : List String)
    (entries : List EntryInfo) (temp_entity : String) : SvcOutcome :=
  match _pick_entry_id callEntryId publishers with
  | none => .noop
  | some eid =>
    match entries.find? (fun e => e.entry_id == eid) with
    | none => .noop
    | some _ => .setOption eid "temp_entity" (pyStrip temp_entity)

/-- Source `svc_dump_layout` dispatch: requires a Panel entry, then
builds and writes the JSONL dump. -/
def svc_dump_layout (callEntryId : Option String) (publishers : List String)
    (entries : List EntryInfo) : SvcOutcome :=
  match _pick_entry_id callEntryId publishers with
  | none => .noop
  | some eid =>
    match entries.find? (fun e => e.entry_id == eid) with
    | none => .noop
    | some e => if e.role = "panel" then .dumpFileFor eid else .noop

/-- Entry id targeted by an outcome, if any. -/
def outcomeEntry : SvcOutcome → Option String
  | .noop => none
  | .publishAllFor e => some e
  | .publishHomeFor e => some e
  | .setOption e _ _ => some e
  | .dumpFileFor e => some e

/-! ## Shared concrete fixtures -/

/-- A panel with one page (order 2) holding a switch, a fan, a
color-capable light and a sensor; slot 1 carries an invalid icon
option. -/
def tcfg : PanelCfg :=
  { node_name := "plate", home_title := "Home", temp_entity := "sensor.temp",
    pages := [ { page_order := 2,
                 slots := ["switch.lamp", "fan.ceiling", "light.rgb", "sensor.hum"],
                 slotIcons := [some "ZZ", none, none, none] } ] }

def tstates : States :=
  [("sensor.temp", { state := "21.5" }),
   ("switch.lamp", { state := "on", friendly_name := some "Lamp" }),
   ("fan.ceiling", { state := "off", friendly_name := some "Fan" }),
   ("light.rgb", { state := "on", friendly_name := some "RGB",
                   supported_color_modes := ["hs", "rgb"] }),
   ("sensor.hum", { state := "55" })]

/-- A one-switch page for the control-map claim. -/
def swCfg : PanelCfg :=
  { node_name := "plate", home_title := "Home",
    pages := [ { page_order := 2, slots := ["switch.lamp"] } ] }

def swStates : States := [("switch.lamp", { state := "off" })]

def isServiceCall : Effect → Bool
  | .serviceCall _ _ _ _ => true
  | _ => false

/-! ## Claim theorems -/

/-- C1: the claim says every switch/light/fan toggle tile gets a
`ctrl_map` key `p<page>b<id>` so an `up` event dispatches
`turn_on`/`turn_off`. In the code the `ctrl_map` assignment (with its
comment "Always map main button on/off unless the entity uses a
dedicated options page") is indented into the `elif domain == "cover"`
branch, so a plain switch tile is rendered as a toggle (widget `p2b12`,
recorded in `ent_toggle_map`) yet `ctrl_map` stays empty and repeated
`up` events on `p2b12` dispatch no service call at all. -/
theorem c1_switch_toggle_not_in_ctrl_map :
    ((_publish_all {} swCfg swStates).1.ent_toggle_map
        = [("switch.lamp", [(2, 12)])]) ∧
    ((_publish_all {} swCfg swStates).1.ctrl_map = []) ∧
    ((_state_event "plate" swCfg (_publish_all {} swCfg swStates).1
        "p2b12" "up" 1 "" 100).2.filter isServiceCall = []) ∧
    ((_state_event "plate" swCfg
        (_state_event "plate" swCfg (_publish_all {} swCfg swStates).1
          "p2b12" "up" 1 "" 100).1 "p2b12" "up" 1 "" 200).2 = []) := by
  decide

/-- C4 counterexample: an `up` event on a matrix mapped as a fan-speed
selector with `val = 1` arriving inside the popup-close cooldown window
is dropped by the cooldown guard (lines 971-978): no `fan.set_percentage`
call and no publish at all, contradicting the unconditional claim. -/
def cdSt : PanelStore :=
  { matrix_map := [("p50m60", .fan_select "fan.f")], popup_cooldown_until := 1 }

theorem c4_cooldown_drops_fan_matrix_up :
    lookupKV cdSt.matrix_map "p50m60" = some (.fan_select "fan.f") ∧
    _state_event "plate" swCfg cdSt "p50m60" "up" 1 "" 0 = (cdSt, []) := by
  decide

/-- C4 (amended): a `fan_select` matrix event dispatches
`fan.turn_off` for `val = 0` (and any value outside 1-3) and
`fan.set_percentage` 33/66/100 for `val` = 1/2/3, then hides the popup
overlay elements registered for the page parsed from the topic —
provided the event is `changed`, or is `up` arriving at or after the
popup-close cooldown deadline and not captured by the earlier routing
steps of the `up` chain (which never map matrix widgets). -/
theorem c4_fan_select_dispatch
    (node : String) (cfg : PanelCfg) (st : PanelStore) (tail : String)
    (event : String) (ent : String) (val : Int) (raw : String) (now : Int)
    (hmx : lookupKV st.matrix_map tail = some (.fan_select ent))
    (hp : strStartsWith tail "p" = true) (hm : strIn "m" tail = true)
    (hev : event = "up" ∨ event = "changed")
    (hcd : st.popup_cooldown_until ≤ now)
    (hoc : lookupKV st.option_close_map tail = none)
    (hoo : lookupKV st.option_open_map tail = none)
    (hcons : consumeCheck node st tail now = none)
    (hpm : lookupKV st.popup_map tail = none)
    (hr1 : tail ≠ "p1b112") (hr2 : tail ≠ "p1b122") (hr3 : tail ≠ "p1b132")
    (hcb : lookupKV st.color_btn_map tail = none)
    (hcm : lookupKV st.ctrl_map tail = none) :
    let pg := (pageFromTail tail 'm').getD 1
    let hides := hideTargets node ((lookupN st.popup_overlay_targets pg).getD []) pg
    (val = 1 → _state_event node cfg st tail event val raw now =
      (st, .serviceCall "fan" "set_percentage" ent (.percentageData 33) :: hides)) ∧
    (val = 2 → _state_event node cfg st tail event val raw now =
      (st, .serviceCall "fan" "set_percentage" ent (.percentageData 66) :: hides)) ∧
    (val = 3 → _state_event node cfg st tail event val raw now =
      (st, .serviceCall "fan" "set_percentage" ent (.percentageData 100) :: hides)) ∧
    (val ≠ 1 → val ≠ 2 → val ≠ 3 → _state_event node cfg st tail event val raw now =
      (st, .serviceCall "fan" "turn_off" ent .noData :: hides)) := by
  have hpage : tail ≠ "page" := by
    intro h; subst h; exact absurd hm (by decide)
  have hlong : event ≠ "long" := by
    rcases hev with h | h <;> subst h <;> decide
  have hcd' : ¬ (now < st.popup_cooldown_until) := not_lt.mpr hcd
  have hup : routeUp node st tail val now = .inr [] := by
    simp [routeUp, hcd', hoc, hoo, hcons, hpm, hr1, hr2, hr3, hcb, hcm]
  rcases hev with h | h <;> subst h <;>
    refine ⟨fun h1 => ?_, fun h2 => ?_, fun h3 => ?_, fun n1 n2 n3 => ?_⟩ <;>
    simp_all [_state_event, routeMatrix, hmx, hp, hm, hpage, pct_map]

def c4wSt : PanelStore := { matrix_map := [("p50m60", .fan_select "fan.f")] }

/-- Witness for C4: with the fan matrix `p50m60` registered, no
cooldown pending and no competing map entries, an `up` with `val = 2`
dispatches `fan.set_percentage 66` (page 50 has no registered overlay
elements, so nothing is hidden). -/
theorem c4_fan_select_dispatch_witness :
    _state_event "plate" swCfg c4wSt "p50m60" "up" 2 "" 5 =
      (c4wSt, [.serviceCall "fan" "set_percentage" "fan.f" (.percentageData 66)]) := by
  have h := c4_fan_select_dispatch "plate" swCfg c4wSt "p50m60" "up" "fan.f" 2 "" 5
    (by decide) (by decide) (by decide) (Or.inl rfl) (by decide) (by decide)
    (by decide) (by decide) (by decide) (by decide) (by decide) (by decide)
    (by decide) (by decide)
  simpa using h.2.1 rfl

/-- C5: after the router closes a popup at monotonic time `t0`, the
cooldown deadline becomes `t0 + 350` ms (the source's 0.35 s), and
every touch `up` event arriving before that deadline is ignored
entirely: the store is unchanged and no effect is produced — no
service call, no page navigation, no MQTT publish. -/
theorem c5_cooldown_ignores_up
    (node : String) (cfg : PanelCfg) (st : PanelStore) (pg : Nat) (t0 : Int)
    (tail : String) (val : Int) (raw : String) (now : Int)
    (h : now < t0 + 350) :
    _state_event node cfg (closePopup node st pg t0).1 tail "up" val raw now =
      ((closePopup node st pg t0).1, []) := by
  have hc : (closePopup node st pg t0).1.popup_cooldown_until = t0 + 350 := rfl
  simp [_state_event, routeUp, hc, h]

theorem c5_cooldown_ignores_up_witness :
    (349 : Int) < 0 + 350 ∧
    _state_event "plate" swCfg (closePopup "plate" {} 2 0).1 "p2b12" "up" 1 "" 349 =
      ((closePopup "plate" {} 2 0).1, []) :=
  ⟨by decide, c5_cooldown_ignores_up "plate" swCfg {} 2 0 "p2b12" 1 "" 349 (by decide)⟩

/-- C6: the layout builder is a pure function of the panel/page config
and the entity states — two `dump_layout` runs over identical inputs
produce identical JSONL line lists, element for element and in order. -/
theorem c6_dump_layout_deterministic (c1 c2 : PanelCfg) (s1 s2 : States)
    (hc : c1 = c2) (hs : s1 = s2) :
    dump_layout_lines c1 s1 = dump_layout_lines c2 s2 := by
  subst hc; subst hs; rfl

theorem c6_dump_layout_deterministic_witness :
    tcfg = tcfg ∧
    dump_layout_lines tcfg tstates = dump_layout_lines tcfg tstates :=
  ⟨rfl, c6_dump_layout_deterministic tcfg tcfg tstates tstates rfl rfl⟩

/-- C7: with no `entry_id` in the call and two or more registered
publishers, every service resolves no entry and does nothing (no
publish task, no option update, no file write); with exactly one
registered publisher, `_pick_entry_id` returns it and every non-noop
outcome targets that entry. -/
theorem c7_service_entry_resolution :
    (∀ (publishers : List String) (entries : List EntryInfo) (title temp : String),
       2 ≤ publishers.length →
       svc_publish_all none publishers = .noop ∧
       svc_publish_home none publishers = .noop ∧
       svc_set_home_title none publishers entries title = .noop ∧
       svc_set_temp_entity none publishers entries temp = .noop ∧
       svc_dump_layout none publishers entries = .noop) ∧
    (∀ (e : String) (entries : List EntryInfo) (title temp : String),
       _pick_entry_id none [e] = some e ∧
       svc_publish_all none [e] = .publishAllFor e ∧
       svc_publish_home none [e] = .publishHomeFor e ∧
       (svc_set_home_title none [e] entries title = .noop ∨
         outcomeEntry (svc_set_home_title none [e] entries title) = some e) ∧
       (svc_set_temp_entity none [e] entries temp = .noop ∨
         outcomeEntry (svc_set_temp_entity none [e] entries temp) = some e) ∧
       (svc_dump_layout none [e] entries = .noop ∨
         outcomeEntry (svc_dump_layout none [e] entries) = some e)) := by
  constructor
  · intro pubs entries title temp hlen
    have h1 : pubs.length ≠ 1 := by omega
    simp [svc_publish_all, svc_publish_home, svc_set_home_title,
      svc_set_temp_entity, svc_dump_layout, _pick_entry_id, h1]
  · intro e entries title temp
    refine ⟨rfl, by simp [svc_publish_all, _pick_entry_id],
      by simp [svc_publish_home, _pick_entry_id], ?_, ?_, ?_⟩
    · rcases hfind : entries.find? (fun x => x.entry_id == e) with _ | e' <;>
        simp [svc_set_home_title, _pick_entry_id, hfind, outcomeEntry]
    · rcases hfind : entries.find? (fun x => x.entry_id == e) with _ | e' <;>
        simp [svc_set_temp_entity, _pick_entry_id, hfind, outcomeEntry]
    · rcases hfind : entries.find? (fun x => x.entry_id == e) with _ | e'
      · simp [svc_dump_layout, _pick_entry_id, hfind, outcomeEntry]
      · by_cases hrole : e'.role = "panel" <;>
          simp [svc_dump_layout, _pick_entry_id, hfind, hrole, outcomeEntry]

theorem c7_service_entry_resolution_witness :
    svc_publish_all none ["a", "b"] = .noop ∧
    _pick_entry_id none ["a"] = some "a" ∧
    svc_publish_all none ["a"] = .publishAllFor "a" :=
  ⟨(c7_service_entry_resolution.1 ["a", "b"] [] "" "" (by decide)).1,
   (c7_service_entry_resolution.2 "a" [] "" "").1,
   (c7_service_entry_resolution.2 "a" [] "" "").2.1⟩

/-- The `Maps` output of the page fold does not depend on the popup
dicts threaded from the persistent store. -/
theorem publishPagesFold_maps_indep (cfg : PanelCfg) (states : States)
    (pes : List PageEntry) (ms : Maps)
    (pt1 pt2 : List (Nat × List (String × Nat))) (pm1 pm2 : List (String × Nat)) :
    (publishPagesFold cfg states pes ms pt1 pm1).1 =
      (publishPagesFold cfg states pes ms pt2 pm2).1 := by
  induction pes generalizing ms pt1 pt2 pm1 pm2 with
  | nil => rfl
  | cons pe rest ih => simpa only [publishPagesFold] using ih _ _ _ _ _

def cfg23 : PanelCfg :=
  { node_name := "plate", home_title := "Home",
    pages := [ { page_order := 2, slots := ["switch.lamp"] },
               { page_order := 3, slots := ["switch.lamp"] } ] }

def cfg2 : PanelCfg :=
  { node_name := "plate", home_title := "Home",
    pages := [ { page_order := 2, slots := ["switch.lamp"] } ] }

/-- C3 counterexample: publish pages {2, 3}, drop page 3 from the
config and publish again. The popup-overlay registry and `popup_map`
still hold the entries placed for page 3 by the first invocation,
while a fresh store publishing the same final config holds none —
so the popup-overlay registry is not fully reconstructed. -/
theorem c3_popup_registry_survives_republish :
    (lookupN ((_publish_all (_publish_all {} cfg23 swStates).1 cfg2 swStates).1).popup_overlay_targets 3
        = some modalTargets) ∧
    (lookupKV ((_publish_all (_publish_all {} cfg23 swStates).1 cfg2 swStates).1).popup_map "p3b193"
        = some 3) ∧
    (lookupN ((_publish_all {} cfg2 swStates).1).popup_overlay_targets 3 = none) ∧
    (lookupKV ((_publish_all {} cfg2 swStates).1).popup_map "p3b193" = none) := by
  decide

/-- C3 (amended): every runtime map except the popup-overlay registry
(`popup_overlay_targets`/`popup_map`) is fully reconstructed by
`_publish_all` from the current config entries and entity states: the
result does not depend on the prior store contents in any of those
fields. The popup-overlay registry is only updated per published page
(via `setdefault`), so entries of pages no longer configured survive
(see the counterexample). -/
theorem c3_runtime_maps_rebuilt (st1 st2 : PanelStore) (cfg : PanelCfg)
    (states : States) :
    ((_publish_all st1 cfg states).1.ctrl_map
        = (_publish_all st2 cfg states).1.ctrl_map) ∧
    ((_publish_all st1 cfg states).1.sensor_map
        = (_publish_all st2 cfg states).1.sensor_map) ∧
    ((_publish_all st1 cfg states).1.ent_toggle_map
        = (_publish_all st2 cfg states).1.ent_toggle_map) ∧
    ((_publish_all st1 cfg states).1.matrix_map
        = (_publish_all st2 cfg states).1.matrix_map) ∧
    ((_publish_all st1 cfg states).1.ent_matrix_map
        = (_publish_all st2 cfg states).1.ent_matrix_map) ∧
    ((_publish_all st1 cfg states).1.color_btn_map
        = (_publish_all st2 cfg states).1.color_btn_map) ∧
    ((_publish_all st1 cfg states).1.fan_status_map
        = (_publish_all st2 cfg states).1.fan_status_map) ∧
    ((_publish_all st1 cfg states).1.option_specs
        = (_publish_all st2 cfg states).1.option_specs) ∧
    ((_publish_all st1 cfg states).1.option_open_map
        = (_publish_all st2 cfg states).1.option_open_map) ∧
    ((_publish_all st1 cfg states).1.option_close_map
        = (_publish_all st2 cfg states).1.option_close_map) ∧
    ((_publish_all st1 cfg states).1.option_page_titles
        = (_publish_all st2 cfg states).1.option_page_titles) ∧
    ((_publish_all st1 cfg states).1.option_return_map
        = (_publish_all st2 cfg states).1.option_return_map) := by
  have h := publishPagesFold_maps_indep cfg states (sortPages cfg.pages) {}
    st1.popup_overlay_targets st2.popup_overlay_targets
    st1.popup_map st2.popup_map
  simp only [_publish_all]
  rw [h]
  exact ⟨rfl, rfl, rfl, rfl, rfl, rfl, rfl, rfl, rfl, rfl, rfl, rfl⟩

/-- Index arithmetic of the ring: stepping back then forward (mod the
length) is the identity on indices. -/
theorem ring_step_back_forward {n i : Nat} (hn : 0 < n) (hi : i < n) :
    ((i + n - 1) % n + 1) % n = i := by
  rcases Nat.eq_zero_or_pos i with h0 | hpos
  · subst h0
    have h0n : 0 + n - 1 = n - 1 := by omega
    have h1 : (0 + n - 1) % n = n - 1 := by
      rw [h0n]; exact Nat.mod_eq_of_lt (by omega)
    rw [h1]
    have : n - 1 + 1 = n := by omega
    rw [this, Nat.mod_self]
  · have h1 : i + n - 1 = (i - 1) + n := by omega
    have h2 : (i + n - 1) % n = i - 1 := by
      rw [h1, Nat.add_mod_right]
      exact Nat.mod_eq_of_lt (by omega)
    rw [h2]
    have : i - 1 + 1 = i := by omega
    rw [this]
    exact Nat.mod_eq_of_lt hi

theorem ring_step_forward_back {n i : Nat} (hn : 0 < n) (hi : i < n) :
    ((i + 1) % n + n - 1) % n = i := by
  rcases Nat.lt_or_ge (i + 1) n with hlt | hge
  · have h1 : (i + 1) % n = i + 1 := Nat.mod_eq_of_lt hlt
    rw [h1]
    have h2 : i + 1 + n - 1 = i + n := by omega
    rw [h2, Nat.add_mod_right]
    exact Nat.mod_eq_of_lt hi
  · have heq : i + 1 = n := by omega
    rw [heq, Nat.mod_self]
    have : 0 + n - 1 = n - 1 := by omega
    rw [this]
    have : n - 1 = i := by omega
    rw [this]
    exact Nat.mod_eq_of_lt hi

theorem pnext_pprev_of_nodup (ring : List Nat) (hnd : ring.Nodup)
    {p : Nat} (hp : p ∈ ring) : pnext ring (pprev ring p) = p := by
  have hlen : 0 < ring.length := List.length_pos.mpr (List.ne_nil_of_mem hp)
  have hi : ring.indexOf p < ring.length := List.indexOf_lt_length.mpr hp
  have hj : (ring.indexOf p + ring.length - 1) % ring.length < ring.length :=
    Nat.mod_lt _ hlen
  have e1 : pprev ring p =
      ring[(ring.indexOf p + ring.length - 1) % ring.length] := by
    simp only [pprev]; exact List.getD_eq_getElem ring 0 hj
  have e2 : ring.indexOf (pprev ring p) =
      (ring.indexOf p + ring.length - 1) % ring.length := by
    rw [e1]; exact List.indexOf_getElem hnd _ hj
  simp only [pnext]
  rw [e2, ring_step_back_forward hlen hi,
    List.getD_eq_getElem ring 0 hi, List.getElem_indexOf hi]

theorem pprev_pnext_of_nodup (ring : List Nat) (hnd : ring.Nodup)
    {p : Nat} (hp : p ∈ ring) : pprev ring (pnext ring p) = p := by
  have hlen : 0 < ring.length := List.length_pos.mpr (List.ne_nil_of_mem hp)
  have hi : ring.indexOf p < ring.length := List.indexOf_lt_length.mpr hp
  have hj : (ring.indexOf p + 1) % ring.length < ring.length := Nat.mod_lt _ hlen
  have e1 : pnext ring p = ring[(ring.indexOf p + 1) % ring.length] := by
    simp only [pnext]; exact List.getD_eq_getElem ring 0 hj
  have e2 : ring.indexOf (pnext ring p) = (ring.indexOf p + 1) % ring.length := by
    rw [e1]; exact List.indexOf_getElem hnd _ hj
  simp only [pprev]
  rw [e2, ring_step_forward_back hlen hi,
    List.getD_eq_getElem ring 0 hi, List.getElem_indexOf hi]

/-- The page-order key used by the stable sort. -/
def pageLE (a b : PageEntry) : Prop := a.page_order ≤ b.page_order

theorem mem_insPage {x a : PageEntry} {l : List PageEntry} :
    a ∈ insPage x l ↔ a = x ∨ a ∈ l := by
  induction l with
  | nil => simp [insPage]
  | cons y ys ih =>
    by_cases h : y.page_order ≤ x.page_order <;> simp [insPage, h, ih] <;> tauto

theorem insPage_sorted {x : PageEntry} {l : List PageEntry}
    (h : l.Sorted pageLE) : (insPage x l).Sorted pageLE := by
  induction l with
  | nil => simp [insPage, pageLE]
  | cons y ys ih =>
    rw [List.sorted_cons] at h
    by_cases hle : y.page_order ≤ x.page_order
    · rw [insPage, if_pos hle, List.sorted_cons]
      refine ⟨fun b hb => ?_, ih h.2⟩
      rcases mem_insPage.mp hb with rfl | hb'
      · exact hle
      · exact h.1 b hb'
    · rw [insPage, if_neg hle, List.sorted_cons]
      refine ⟨fun b hb => ?_, List.sorted_cons.mpr h⟩
      rcases List.mem_cons.mp hb with rfl | hb'
      · exact Nat.le_of_not_le hle
      · exact Nat.le_trans (Nat.le_of_not_le hle) (h.1 b hb')

theorem sortPages_sorted (l : List PageEntry) : (sortPages l).Sorted pageLE := by
  have : ∀ acc : List PageEntry, acc.Sorted pageLE →
      (l.foldl (fun a x => insPage x a) acc).Sorted pageLE := by
    induction l with
    | nil => intro acc h; exact h
    | cons x xs ih => intro acc h; exact ih _ (insPage_sorted h)
  exact this [] (by simp)

theorem page_numbers_sorted (cfg : PanelCfg) :
    (page_numbers cfg).Sorted (· ≤ ·) := by
  unfold page_numbers
  exact List.Pairwise.map _ (fun a b h => h) (sortPages_sorted cfg.pages)

theorem sorted_head_le {n : Nat} {ns : List Nat}
    (h : (n :: ns).Sorted (· ≤ ·)) : ∀ q ∈ n :: ns, n ≤ q := by
  intro q hq
  rcases List.mem_cons.mp hq with rfl | hq'
  · exact Nat.le_refl q
  · exact List.rel_of_sorted_cons h q hq'

theorem sorted_le_getLastD : ∀ (n : Nat) (ns : List Nat),
    (n :: ns).Sorted (· ≤ ·) → ∀ q ∈ n :: ns, q ≤ ns.getLastD n := by
  intro n ns
  induction ns generalizing n with
  | nil => intro _ q hq; simp_all
  | cons m ms ih =>
    intro h q hq
    rw [List.getLastD_cons]
    rcases List.mem_cons.mp hq with rfl | hq'
    · exact Nat.le_trans (List.rel_of_sorted_cons h m (by simp))
        (ih m h.of_cons m (by simp))
    · exact ih m h.of_cons q hq'

def dupCfg : PanelCfg :=
  { node_name := "plate", home_title := "Home",
    pages := [ { page_order := 2 }, { page_order := 2 } ] }

/-- C10 counterexample: two page entries may share `page_order` (no
uniqueness is enforced anywhere), and then `pages_ring = [1, 2, 2]`
breaks the cycle law: `pprev (pnext 2) = 1 ≠ 2`. -/
theorem c10_duplicate_page_order_breaks_cycle :
    2 ∈ pages_ring dupCfg ∧
    pprev (pages_ring dupCfg) (pnext (pages_ring dupCfg) 2) ≠ 2 := by
  decide

/-- C10 (amended): when the ring `[1] ++ sorted page_order values` has
no duplicates (pairwise-distinct configured page orders, none equal
to 1), prev/next form a single cycle: both round trips are the
identity on every ring member; the page-1 link, emitted only when
pages exist, points `next` at the lowest and `prev` at the highest
configured page order; with no pages configured it is left unset. -/
theorem c10_nav_ring_cycle (cfg : PanelCfg)
    (hnd : (pages_ring cfg).Nodup) :
    (∀ p ∈ pages_ring cfg,
       pnext (pages_ring cfg) (pprev (pages_ring cfg) p) = p ∧
       pprev (pages_ring cfg) (pnext (pages_ring cfg) p) = p) ∧
    (∀ pv nx, homeLink cfg = some (pv, nx) →
       nx ∈ page_numbers cfg ∧ pv ∈ page_numbers cfg ∧
       ∀ q ∈ page_numbers cfg, nx ≤ q ∧ q ≤ pv) ∧
    (homeLink cfg = none ↔ page_numbers cfg = []) := by
  refine ⟨fun p hp => ⟨pnext_pprev_of_nodup _ hnd hp, pprev_pnext_of_nodup _ hnd hp⟩,
    ?_, ?_⟩
  · intro pv nx hsome
    rcases hn : page_numbers cfg with _ | ⟨n, ns⟩
    · rw [homeLink, hn] at hsome; exact absurd hsome (by simp)
    · simp only [homeLink, hn, Option.some.injEq, Prod.mk.injEq] at hsome
      obtain ⟨rfl, rfl⟩ := hsome
      have hs : (n :: ns).Sorted (· ≤ ·) := by
        have := page_numbers_sorted cfg; rwa [hn] at this
      exact ⟨by simp, List.getLastD_mem_cons ns n,
        fun q hq => ⟨sorted_head_le hs q hq, sorted_le_getLastD n ns hs q hq⟩⟩
  · rcases hn : page_numbers cfg with _ | ⟨n, ns⟩ <;> simp [homeLink, hn]

/-- Witness for C10 on the concrete one-page panel: the ring `[1, 2]`
is a two-cycle. -/
theorem c10_nav_ring_cycle_witness :
    pnext (pages_ring tcfg) (pprev (pages_ring tcfg) 2) = 2 ∧
    pprev (pages_ring tcfg) (pnext (pages_ring tcfg) 2) = 2 :=
  (c10_nav_ring_cycle tcfg (by decide)).1 2 (by decide)

/-! ## Option-page allocation (C2) -/

/-- Each tile of the publish walk either leaves the option-spec list
and the `next_option_page` counter untouched, or appends exactly one
spec carrying the current counter value and bumps the counter. -/
theorem publishTile_alloc (states : States) (p : Nat) (pe : PageEntry)
    (layout : String) (spec : TileSpec) (slot : Option (Nat × String))
    (ri : Nat) (ms : Maps) :
    (((publishTile states p pe layout spec slot ri ms).2.1.option_specs
        = ms.option_specs) ∧
     ((publishTile states p pe layout spec slot ri ms).2.1.next_option_page
        = ms.next_option_page)) ∨
    (∃ sp : OptionSpec, sp.page_id = ms.next_option_page ∧
     (publishTile states p pe layout spec slot ri ms).2.1.option_specs
        = ms.option_specs ++ [sp] ∧
     (publishTile states p pe layout spec slot ri ms).2.1.next_option_page
        = ms.next_option_page + 1) := by
  rcases slot with _ | ⟨key, ent⟩
  · exact Or.inl ⟨rfl, rfl⟩
  · simp only [publishTile]
    split_ifs <;>
      first
        | exact Or.inl ⟨rfl, rfl⟩
        | exact Or.inr ⟨_, rfl, rfl, rfl⟩

/-- Fold form of the allocation behaviour over a tile list: the specs
appended by the walk carry exactly the counter values
`next, next+1, ...` in order. -/
theorem publishTiles_alloc (states : States) (p : Nat) (pe : PageEntry)
    (layout : String) :
    ∀ (asgs : List (TileSpec × Option (Nat × String))) (ri : Nat) (ms : Maps),
    ∃ news : List OptionSpec,
      (publishTiles states p pe layout asgs ri ms).1.option_specs
        = ms.option_specs ++ news ∧
      news.map (·.page_id) = List.range' ms.next_option_page news.length ∧
      (publishTiles states p pe layout asgs ri ms).1.next_option_page
        = ms.next_option_page + news.length := by
  intro asgs
  induction asgs with
  | nil => intro ri ms; exact ⟨[], by simp [publishTiles], by simp, by simp [publishTiles]⟩
  | cons a rest ih =>
    intro ri ms
    obtain ⟨spec, slot⟩ := a
    rcases publishTile_alloc states p pe layout spec slot ri ms with
      ⟨hS, hN⟩ | ⟨sp, hpid, hS, hN⟩
    · obtain ⟨news, h1, h2, h3⟩ :=
        ih (publishTile states p pe layout spec slot ri ms).1
           (publishTile states p pe layout spec slot ri ms).2.1
      refine ⟨news, ?_, ?_, ?_⟩
      · simpa only [publishTiles, hS] using h1
      · rw [h2, hN]
      · simpa only [publishTiles, hN] using h3
    · obtain ⟨news, h1, h2, h3⟩ :=
        ih (publishTile states p pe layout spec slot ri ms).1
           (publishTile states p pe layout spec slot ri ms).2.1
      refine ⟨sp :: news, ?_, ?_, ?_⟩
      · simp only [publishTiles]
        rw [h1, hS, List.append_assoc]
        rfl
      · rw [List.map_cons, h2, hN, hpid]
        show _ = List.range' ms.next_option_page (news.length + 1)
        rw [List.range'_succ]
      · simp only [publishTiles]
        rw [h3, hN, List.length_cons]
        omega

/-- Allocation behaviour of one published page. -/
theorem publish_page_alloc (cfg : PanelCfg) (states : States) (p : Nat)
    (pe : PageEntry) (ms : Maps) (pt : List (Nat × List (String × Nat)))
    (pm : List (String × Nat)) :
    ∃ news : List OptionSpec,
      (_publish_page_num cfg states p pe ms pt pm).1.option_specs
        = ms.option_specs ++ news ∧
      news.map (·.page_id) = List.range' ms.next_option_page news.length ∧
      (_publish_page_num cfg states p pe ms pt pm).1.next_option_page
        = ms.next_option_page + news.length := by
  simpa only [_publish_page_num] using
    publishTiles_alloc states p pe (effectiveLayout pe) (buildAssignments pe) 1 ms

/-- Allocation behaviour of the whole page fold of `_publish_all`. -/
theorem publishPagesFold_alloc (cfg : PanelCfg) (states : States) :
    ∀ (pes : List PageEntry) (ms : Maps)
      (pt : List (Nat × List (String × Nat))) (pm : List (String × Nat)),
    ∃ news : List OptionSpec,
      (publishPagesFold cfg states pes ms pt pm).1.option_specs
        = ms.option_specs ++ news ∧
      news.map (·.page_id) = List.range' ms.next_option_page news.length ∧
      (publishPagesFold cfg states pes ms pt pm).1.next_option_page
        = ms.next_option_page + news.length := by
  intro pes
  induction pes with
  | nil => intro ms pt pm; exact ⟨[], by simp [publishPagesFold], by simp, by simp [publishPagesFold]⟩
  | cons pe rest ih =>
    intro ms pt pm
    obtain ⟨news1, h1, h2, h3⟩ := publish_page_alloc cfg states pe.page_order pe ms pt pm
    obtain ⟨news2, g1, g2, g3⟩ :=
      ih (_publish_page_num cfg states pe.page_order pe ms pt pm).1
         (_publish_page_num cfg states pe.page_order pe ms pt pm).2.2.1
         (_publish_page_num cfg states pe.page_order pe ms pt pm).2.2.2
    refine ⟨news1 ++ news2, ?_, ?_, ?_⟩
    · simp only [publishPagesFold]
      rw [g1, h1, List.append_assoc]
    · rw [List.map_append, h2, g2, h3]
      have := List.range'_append ms.next_option_page news1.length news2.length 1
      simp only [Nat.one_mul] at this
      rw [List.length_append]
      rw [Nat.add_comm news1.length news2.length]
      exact this
    · simp only [publishPagesFold]
      rw [g3, h3, List.length_append]
      omega

/-- `_publish_option_pages` never touches the spec list or the counter. -/
theorem publishOptionPages_specs :
    ∀ (specs : List OptionSpec) (ms : Maps),
      (publishOptionPages specs ms).1.option_specs = ms.option_specs ∧
      (publishOptionPages specs ms).1.next_option_page = ms.next_option_page := by
  intro specs
  induction specs with
  | nil => intro ms; exact ⟨rfl, rfl⟩
  | cons spec rest ih =>
    intro ms
    have hstep : (publishOptionPage spec ms).1.option_specs = ms.option_specs ∧
        (publishOptionPage spec ms).1.next_option_page = ms.next_option_page := by
      simp only [publishOptionPage]
      split_ifs <;> exact ⟨rfl, rfl⟩
    obtain ⟨ih1, ih2⟩ := ih (publishOptionPage spec ms).1
    exact ⟨by simp only [publishOptionPages]; rw [ih1, hstep.1],
           by simp only [publishOptionPages]; rw [ih2, hstep.2]⟩

/-- Same single-step allocation behaviour for the dump walk. -/
theorem dumpTile_alloc (states : States) (p : Nat) (spec : TileSpec)
    (slot : Option (Nat × String)) (ri : Nat) (acc : DumpAcc) :
    (((dumpTile states p spec slot ri acc).2.option_specs = acc.option_specs) ∧
     ((dumpTile states p spec slot ri acc).2.next_option_page
        = acc.next_option_page)) ∨
    (∃ sp : OptionSpec, sp.page_id = acc.next_option_page ∧
     (dumpTile states p spec slot ri acc).2.option_specs
        = acc.option_specs ++ [sp] ∧
     (dumpTile states p spec slot ri acc).2.next_option_page
        = acc.next_option_page + 1) := by
  rcases slot with _ | ⟨key, ent⟩
  · exact Or.inl ⟨rfl, rfl⟩
  · simp only [dumpTile]
    split_ifs <;>
      first
        | exact Or.inl ⟨rfl, rfl⟩
        | exact Or.inr ⟨_, rfl, rfl, rfl⟩

theorem dumpTiles_alloc (states : States) (p : Nat) :
    ∀ (asgs : List (TileSpec × Option (Nat × String))) (ri : Nat) (acc : DumpAcc),
    ∃ news : List OptionSpec,
      (dumpTiles states p asgs ri acc).option_specs = acc.option_specs ++ news ∧
      news.map (·.page_id) = List.range' acc.next_option_page news.length ∧
      (dumpTiles states p asgs ri acc).next_option_page
        = acc.next_option_page + news.length := by
  intro asgs
  induction asgs with
  | nil => intro ri acc; exact ⟨[], by simp [dumpTiles], by simp, by simp [dumpTiles]⟩
  | cons a rest ih =>
    intro ri acc
    obtain ⟨spec, slot⟩ := a
    rcases dumpTile_alloc states p spec slot ri acc with
      ⟨hS, hN⟩ | ⟨sp, hpid, hS, hN⟩
    · obtain ⟨news, h1, h2, h3⟩ :=
        ih (dumpTile states p spec slot ri acc).1 (dumpTile states p spec slot ri acc).2
      refine ⟨news, ?_, ?_, ?_⟩
      · simpa only [dumpTiles, hS] using h1
      · rw [h2, hN]
      · simpa only [dumpTiles, hN] using h3
    · obtain ⟨news, h1, h2, h3⟩ :=
        ih (dumpTile states p spec slot ri acc).1 (dumpTile states p spec slot ri acc).2
      refine ⟨sp :: news, ?_, ?_, ?_⟩
      · simp only [dumpTiles]
        rw [h1, hS, List.append_assoc]
        rfl
      · rw [List.map_cons, h2, hN, hpid]
        show _ = List.range' acc.next_option_page (news.length + 1)
        rw [List.range'_succ]
      · simp only [dumpTiles]
        rw [h3, hN, List.length_cons]
        omega

theorem dumpPage_alloc (states : States) (ring : List Nat) (pe : PageEntry)
    (acc : DumpAcc) :
    ∃ news : List OptionSpec,
      (dumpPage states ring pe acc).option_specs = acc.option_specs ++ news ∧
      news.map (·.page_id) = List.range' acc.next_option_page news.length ∧
      (dumpPage states ring pe acc).next_option_page
        = acc.next_option_page + news.length := by
  simpa only [dumpPage] using
    dumpTiles_alloc states pe.page_order (buildAssignments pe) 1 _

theorem dumpPagesFold_alloc (states : States) (ring : List Nat) :
    ∀ (pes : List PageEntry) (acc : DumpAcc),
    ∃ news : List OptionSpec,
      (pes.foldl (fun a pe => dumpPage states ring pe a) acc).option_specs
        = acc.option_specs ++ news ∧
      news.map (·.page_id) = List.range' acc.next_option_page news.length ∧
      (pes.foldl (fun a pe => dumpPage states ring pe a) acc).next_option_page
        = acc.next_option_page + news.length := by
  intro pes
  induction pes with
  | nil => intro acc; exact ⟨[], by simp, by simp, by simp⟩
  | cons pe rest ih =>
    intro acc
    obtain ⟨news1, h1, h2, h3⟩ := dumpPage_alloc states ring pe acc
    obtain ⟨news2, g1, g2, g3⟩ := ih (dumpPage states ring pe acc)
    refine ⟨news1 ++ news2, ?_, ?_, ?_⟩
    · simp only [List.foldl_cons]
      rw [g1, h1, List.append_assoc]
    · rw [List.map_append, h2, g2, h3]
      have := List.range'_append acc.next_option_page news1.length news2.length 1
      simp only [Nat.one_mul] at this
      rw [List.length_append, Nat.add_comm news1.length news2.length]
      exact this
    · simp only [List.foldl_cons]
      rw [g3, h3, List.length_append]
      omega

/-- Facts that follow from an id list being `range' 50 len`. -/
theorem range50_facts (ids : List Nat) (h : ids = List.range' 50 ids.length) :
    ids.Nodup ∧ (∀ x ∈ ids, 50 ≤ x) ∧
    (∀ i (hi : i < ids.length), ids.get ⟨i, hi⟩ = 50 + i) ∧
    (∀ q, q < 50 → q ∉ ids) := by
  refine ⟨?_, ?_, ?_, ?_⟩
  · rw [h]; exact List.nodup_range' _ _
  · intro x hx; rw [h] at hx; exact (List.mem_range'_1.mp hx).1
  · intro i hi
    have hi' : i < (List.range' 50 ids.length).length := by simpa using hi
    calc ids.get ⟨i, hi⟩ = ids[i] := rfl
      _ = (List.range' 50 ids.length).get ⟨i, hi'⟩ := List.getElem_of_eq h hi
      _ = 50 + i := List.getElem_range'_1 i hi'
  · intro q hq hmem
    rw [h] at hmem
    exact absurd (List.mem_range'_1.mp hmem).1 (by omega)

/-- C2: in a single `_publish_all` or `svc_dump_layout` run the option
pages are allocated sequentially from 50: the collected spec list
carries ids `[50, 51, ...]` in traversal order (so the k-th entity
needing a secondary-control page gets `49 + k`), the ids are pairwise
distinct, all at least 50, and disjoint from every configured
`page_order` value below 50. -/
theorem c2_option_page_allocation (st : PanelStore) (cfg : PanelCfg)
    (states : States) :
    let pids := ((_publish_all st cfg states).1.option_specs).map (·.page_id)
    let dids := ((dumpAccOf cfg states).option_specs).map (·.page_id)
    (pids = List.range' 50 pids.length ∧ pids.Nodup ∧ (∀ x ∈ pids, 50 ≤ x) ∧
      (∀ i (hi : i < pids.length), pids.get ⟨i, hi⟩ = 50 + i) ∧
      (∀ q ∈ page_numbers cfg, q < 50 → q ∉ pids)) ∧
    (dids = List.range' 50 dids.length ∧ dids.Nodup ∧ (∀ x ∈ dids, 50 ≤ x) ∧
      (∀ i (hi : i < dids.length), dids.get ⟨i, hi⟩ = 50 + i) ∧
      (∀ q ∈ page_numbers cfg, q < 50 → q ∉ dids)) := by
  intro pids dids
  constructor
  · obtain ⟨news, h1, h2, h3⟩ := publishPagesFold_alloc cfg states
      (sortPages cfg.pages) {} st.popup_overlay_targets st.popup_map
    have h2' : news.map (·.page_id) = List.range' 50 news.length := h2
    have e : pids = news.map (·.page_id) := by
      have espec : (_publish_all st cfg states).1.option_specs = news := by
        have base : (_publish_all st cfg states).1.option_specs =
            (publishOptionPages
              (publishPagesFold cfg states (sortPages cfg.pages) {}
                st.popup_overlay_targets st.popup_map).1.option_specs
              (publishPagesFold cfg states (sortPages cfg.pages) {}
                st.popup_overlay_targets st.popup_map).1).1.option_specs := rfl
        rw [base, (publishOptionPages_specs _ _).1, h1]
        simp
      show ((_publish_all st cfg states).1.option_specs).map _ = _
      rw [espec]
    have hmain : pids = List.range' 50 pids.length := by
      rw [e, h2']
      simp
    obtain ⟨hnd, hge, hget, hnm⟩ := range50_facts pids hmain
    exact ⟨hmain, hnd, hge, hget, fun q _ hlt => hnm q hlt⟩
  · obtain ⟨acc0, hfold, hspec0, hnext0⟩ :
        ∃ acc0 : DumpAcc, dumpAccOf cfg states =
            (sortPages cfg.pages).foldl
              (fun a pe => dumpPage states (pages_ring cfg) pe a) acc0 ∧
          acc0.option_specs = [] ∧ acc0.next_option_page = 50 :=
      ⟨_, rfl, rfl, rfl⟩
    obtain ⟨news, g1, g2, g3⟩ :=
      dumpPagesFold_alloc states (pages_ring cfg) (sortPages cfg.pages) acc0
    have e : dids = news.map (·.page_id) := by
      have espec : (dumpAccOf cfg states).option_specs = news := by
        rw [hfold, g1, hspec0]
        simp
      show ((dumpAccOf cfg states).option_specs).map _ = _
      rw [espec]
    have g2' : news.map (·.page_id) = List.range' 50 news.length := by
      rw [g2, hnext0]
    have hmain : dids = List.range' 50 dids.length := by
      rw [e, g2']
      simp
    obtain ⟨hnd, hge, hget, hnm⟩ := range50_facts dids hmain
    exact ⟨hmain, hnd, hge, hget, fun q _ hlt => hnm q hlt⟩

/-- Witness for C2 on the concrete panel: one fan and one color light
allocate option pages 50 and 51. -/
theorem c2_option_page_allocation_witness :
    ((_publish_all {} tcfg tstates).1.option_specs).map (·.page_id) =
      List.range' 50
        (((_publish_all {} tcfg tstates).1.option_specs).map (·.page_id)).length :=
  (c2_option_page_allocation {} tcfg tstates).1.1

/-! ## Widget-id bases (C9) -/

/-- The widget-id base sequence produced by the render loops
(`_publish_page_num` lines 499-510 and `svc_dump_layout` lines
228-231): only assigned, non-clock tiles advance `render_index`
(starting at 1), and each one takes `min(render_index, 9) * 10`. -/
def renderBasesGo : List (TileSpec × Option (Nat × String)) → Nat → List Nat
  | [], _ => []
  | (spec, slot) :: rest, ri =>
    match slot with
    | none => renderBasesGo rest ri
    | some _ =>
      if spec.special = some "clock" then renderBasesGo rest ri
      else (min ri 9 * 10) :: renderBasesGo rest (ri + 1)

def pageRenderBases (pe : PageEntry) : List Nat :=
  renderBasesGo (buildAssignments pe) 1

/-- Number of rendered (assigned, non-clock) tiles of a page. -/
def renderedCount (asgs : List (TileSpec × Option (Nat × String))) : Nat :=
  (asgs.filter (fun a => a.2.isSome && !(a.1.special == some "clock"))).length

theorem renderBasesGo_eq (asgs : List (TileSpec × Option (Nat × String))) :
    ∀ ri, renderBasesGo asgs ri =
      (List.range (renderedCount asgs)).map (fun i => min (ri + i) 9 * 10) := by
  induction asgs with
  | nil => intro ri; simp [renderBasesGo, renderedCount]
  | cons a rest ih =>
    intro ri
    obtain ⟨spec, slot⟩ := a
    rcases slot with _ | s
    · simpa [renderBasesGo, renderedCount] using ih ri
    · by_cases hc : spec.special = some "clock"
      · simpa [renderBasesGo, renderedCount, hc] using ih ri
      · have hcount : renderedCount ((spec, some s) :: rest)
            = renderedCount rest + 1 := by
          simp [renderedCount, hc]
        have hstep : renderBasesGo ((spec, some s) :: rest) ri
            = (min ri 9 * 10) :: renderBasesGo rest (ri + 1) := by
          simp [renderBasesGo, hc]
        rw [hcount, hstep, ih (ri + 1), List.range_succ_eq_map,
          List.map_cons, List.map_map]
        simp [Function.comp]
        intro a _
        omega

theorem seqAssign_length (ts : List TileSpec) :
    ∀ q, (seqAssign ts q).length = ts.length := by
  induction ts with
  | nil => intro q; cases q <;> rfl
  | cons t ts ih => intro q; cases q <;> simp [seqAssign, ih]

theorem shadesAssign_length (ts : List TileSpec) :
    ∀ cq oq, (shadesAssign ts cq oq).length = ts.length := by
  induction ts with
  | nil => intro cq oq; rfl
  | cons t ts ih =>
    intro cq oq
    by_cases hs : t.special = some "shades" <;>
      rcases cq with _ | ⟨c, cs⟩ <;> rcases oq with _ | ⟨o, os⟩ <;>
      simp [shadesAssign, hs, ih]

theorem tile_specs_le_nine (s : String) : (_tile_specs_for_layout s).length ≤ 9 := by
  unfold _tile_specs_for_layout LAYOUT_TEMPLATES
  split_ifs <;> decide

theorem buildAssignments_length_le (pe : PageEntry) :
    (buildAssignments pe).length ≤ 9 := by
  have h9 := tile_specs_le_nine (effectiveLayout pe)
  by_cases h : effectiveLayout pe = "shades_row"
  · simp only [buildAssignments, h, if_pos]
    rw [shadesAssign_length]
    simpa [h] using h9
  · simp only [buildAssignments, if_neg h]
    rw [seqAssign_length]
    exact h9

theorem renderedCount_le_nine (pe : PageEntry) :
    renderedCount (buildAssignments pe) ≤ 9 :=
  Nat.le_trans (List.length_filter_le _ _) (buildAssignments_length_le pe)

theorem nodup_bases_iff (k : Nat) :
    ((List.range k).map (fun i => min (i + 1) 9 * 10)).Nodup ↔ k ≤ 9 := by
  constructor
  · intro h
    by_contra hk
    push_neg at hk
    have h8 : 8 < ((List.range k).map (fun i => min (i + 1) 9 * 10)).length := by
      simpa using by omega
    have h9 : 9 < ((List.range k).map (fun i => min (i + 1) 9 * 10)).length := by
      simpa using by omega
    have heq : ((List.range k).map (fun i => min (i + 1) 9 * 10)).get ⟨8, h8⟩
        = ((List.range k).map (fun i => min (i + 1) 9 * 10)).get ⟨9, h9⟩ := by
      simp [List.getElem_range]
    have := (List.Nodup.getElem_inj_iff h).mp heq
    omega
  · intro hk
    interval_cases k <;> decide

/-- C9: the widget-id base handed to the n-th rendered tile of a page
is `min(n, 9) * 10`; these bases are pairwise distinct exactly when at
most nine tiles are rendered, and every layout of this program renders
at most nine tiles, so the bases (hence the derived widget ids and map
keys) never collide; a hypothetical tenth tile would reuse base 90 and
collide with the ninth. -/
theorem c9_tile_bases (pe : PageEntry) :
    (pageRenderBases pe =
      (List.range (renderedCount (buildAssignments pe))).map
        (fun i => min (i + 1) 9 * 10)) ∧
    ((pageRenderBases pe).Nodup ↔ renderedCount (buildAssignments pe) ≤ 9) ∧
    renderedCount (buildAssignments pe) ≤ 9 ∧
    (pageRenderBases pe).Nodup ∧
    (∀ k, 10 ≤ k →
      ∃ h8 : 8 < ((List.range k).map (fun i => min (i + 1) 9 * 10)).length,
      ∃ h9 : 9 < ((List.range k).map (fun i => min (i + 1) 9 * 10)).length,
      ((List.range k).map (fun i => min (i + 1) 9 * 10)).get ⟨8, h8⟩ = 90 ∧
      ((List.range k).map (fun i => min (i + 1) 9 * 10)).get ⟨9, h9⟩ = 90) := by
  have h1 : pageRenderBases pe =
      (List.range (renderedCount (buildAssignments pe))).map
        (fun i => min (i + 1) 9 * 10) := by
    rw [pageRenderBases, renderBasesGo_eq]
    refine List.map_congr_left fun a _ => ?_
    congr 1
    omega
  have hle := renderedCount_le_nine pe
  have hiff : (pageRenderBases pe).Nodup ↔
      renderedCount (buildAssignments pe) ≤ 9 := by
    rw [h1]; exact nodup_bases_iff _
  refine ⟨h1, hiff, hle, hiff.mpr hle, ?_⟩
  intro k hk
  refine ⟨by simpa using by omega, by simpa using by omega, ?_, ?_⟩ <;>
    simp [List.getElem_range]

def tpe : PageEntry :=
  { page_order := 2,
    slots := ["switch.lamp", "fan.ceiling", "light.rgb", "sensor.hum"],
    slotIcons := [some "ZZ", none, none, none] }

theorem c9_tile_bases_witness :
    (pageRenderBases tpe).Nodup ↔ renderedCount (buildAssignments tpe) ≤ 9 :=
  (c9_tile_bases tpe).2.1

/-! ## Icon parsing (C8) -/

theorem icon_code_of_valid (s d : String) (hne : s ≠ "")
    (hv : pyIntHex16 s ≠ none) : icon_code_of (some s) d = s := by
  rcases h : pyIntHex16 s with _ | v
  · exact absurd h hv
  · simp [icon_code_of, pyOr, hne, h]

theorem icon_code_of_invalid (s d : String) (hne : s ≠ "")
    (hv : pyIntHex16 s = none) : icon_code_of (some s) d = "E425" := by
  simp [icon_code_of, pyOr, hne, hv]

theorem icon_code_of_default (d : String) :
    icon_code_of none d = (if d = "fan" then "E210" else "E425") := by
  by_cases h : d = "fan" <;> simp [icon_code_of, pyOr, h] <;> rfl

theorem icon_code_valid_result (o : Option String) (d : String) :
    pyIntHex16 (icon_code_of o d) ≠ none ∧ icon_code_of o d ≠ "" := by
  rcases h : pyIntHex16 (pyOr o (if d = "fan" then "E210" else "E425")) with _ | v
  · have hres : icon_code_of o d = "E425" := by simp [icon_code_of, h]
    rw [hres]
    exact ⟨by decide, by decide⟩
  · have hres : icon_code_of o d = pyOr o (if d = "fan" then "E210" else "E425") := by
      simp [icon_code_of, h]
    refine ⟨by rw [hres, h]; simp, ?_⟩
    rw [hres]
    intro heq
    have h0 : pyIntHex16 "" = (none : Option Int) := rfl
    rw [heq, h0] at h
    cases h

theorem icon_code_fixpoint (o : Option String) (d : String) :
    icon_code_of (some (icon_code_of o d)) d = icon_code_of o d := by
  obtain ⟨hv, hne⟩ := icon_code_valid_result o d
  exact icon_code_of_valid _ d hne hv

/-- Replace every slot-icon option by the code the renderer would
resolve for it (domain-aware). -/
def sanitizeIcons (pe : PageEntry) : PageEntry :=
  { pe with slotIcons := (List.range 12).map (fun i =>
      some (icon_code_of (pe.slotIcons.getD i none)
        (domainOf (pe.slots.getD i "")))) }

theorem sanitizeIcons_getD (pe : PageEntry) (i : Nat) (hi : i < 12) :
    (sanitizeIcons pe).slotIcons.getD i none =
      some (icon_code_of (pe.slotIcons.getD i none)
        (domainOf (pe.slots.getD i ""))) := by
  have hlen : i < ((List.range 12).map (fun i =>
      some (icon_code_of (pe.slotIcons.getD i none)
        (domainOf (pe.slots.getD i ""))))).length := by simpa using hi
  rw [sanitizeIcons]
  rw [List.getD_eq_getElem _ none hlen]
  simp

/-- Every assigned slot of `buildAssignments` carries a key in 1..12
and the entity configured at that key. -/
theorem seqAssign_slot_mem : ∀ (ts : List TileSpec) (q : List (Nat × String))
    (t : TileSpec) (s : Nat × String), (t, some s) ∈ seqAssign ts q → s ∈ q := by
  intro ts
  induction ts with
  | nil => intro q t s h; cases q <;> simp [seqAssign] at h
  | cons t0 ts ih =>
    intro q t s h
    cases q with
    | nil =>
      simp only [seqAssign, List.mem_cons] at h
      rcases h with h | h
      · simp at h
      · exact ih [] t s h
    | cons q0 qs =>
      simp only [seqAssign, List.mem_cons] at h
      rcases h with h | h
      · rw [Prod.mk.injEq] at h
        obtain ⟨h1, h2⟩ := h
        injection h2 with h2
        subst h2
        simp
      · exact List.mem_cons_of_mem _ (ih qs t s h)

theorem shadesAssign_slot_mem : ∀ (ts : List TileSpec)
    (cq oq : List (Nat × String)) (t : TileSpec) (s : Nat × String),
    (t, some s) ∈ shadesAssign ts cq oq → s ∈ cq ∨ s ∈ oq := by
  intro ts
  induction ts with
  | nil => intro cq oq t s h; simp [shadesAssign] at h
  | cons t0 ts ih =>
    intro cq oq t s h
    by_cases hs : t0.special = some "shades" <;>
      rcases cq with _ | ⟨c, cs⟩ <;> rcases oq with _ | ⟨o, os⟩ <;>
      simp only [shadesAssign, hs, if_pos, if_neg, not_false_iff,
        List.mem_cons] at h <;>
      rcases h with h | h <;>
      first
        | (obtain ⟨h1, rfl⟩ := h
           simp)
        | (rcases ih _ _ t s h with h' | h' <;> simp at h' ⊢ <;> tauto)
        | simp at h

theorem buildAssignments_slot_sound (pe : PageEntry) (t : TileSpec)
    (k : Nat) (e : String) (h : (t, some (k, e)) ∈ buildAssignments pe) :
    1 ≤ k ∧ k ≤ 12 ∧ e = pe.slots.getD (k - 1) "" := by
  have hmem : (k, e) ∈ filled_slots pe := by
    by_cases hl : effectiveLayout pe = "shades_row"
    · have := shadesAssign_slot_mem _ _ _ t (k, e)
        (by simpa [buildAssignments, hl] using h)
      rcases this with h' | h' <;> exact List.mem_of_mem_filter h'
    · exact seqAssign_slot_mem _ _ t (k, e)
        (by simpa [buildAssignments, hl] using h)
  have hdef : (k, e) ∈ slot_defs pe := List.mem_of_mem_filter hmem
  simp only [slot_defs, List.mem_map] at hdef
  obtain ⟨i, hi, heq⟩ := hdef
  obtain ⟨rfl, rfl⟩ : i = k ∧ pe.slots.getD (i - 1) "" = e := by
    exact ⟨congrArg Prod.fst heq, congrArg Prod.snd heq⟩
  have := List.mem_range'_1.mp hi
  exact ⟨this.1, by omega, rfl⟩

theorem publishTile_sanitize (states : States) (p : Nat) (pe : PageEntry)
    (layout : String) (spec : TileSpec) (slot : Option (Nat × String))
    (ri : Nat) (ms : Maps)
    (hk : ∀ k e, slot = some (k, e) →
      1 ≤ k ∧ k ≤ 12 ∧ e = pe.slots.getD (k - 1) "") :
    publishTile states p (sanitizeIcons pe) layout spec slot ri ms
      = publishTile states p pe layout spec slot ri ms := by
  rcases slot with _ | ⟨key, ent⟩
  · rfl
  · obtain ⟨h1, h2, h3⟩ := hk key ent rfl
    have hicon : icon_code_of ((sanitizeIcons pe).slotIcons.getD (key - 1) none)
        (domainOf ent)
        = icon_code_of (pe.slotIcons.getD (key - 1) none) (domainOf ent) := by
      rw [sanitizeIcons_getD pe (key - 1) (by omega), h3]
      exact icon_code_fixpoint _ _
    simp only [publishTile]
    rw [hicon]

theorem publishTiles_sanitize (states : States) (p : Nat) (pe : PageEntry)
    (layout : String) :
    ∀ (asgs : List (TileSpec × Option (Nat × String))) (ri : Nat) (ms : Maps),
    (∀ spec k e, (spec, some (k, e)) ∈ asgs →
      1 ≤ k ∧ k ≤ 12 ∧ e = pe.slots.getD (k - 1) "") →
    publishTiles states p (sanitizeIcons pe) layout asgs ri ms
      = publishTiles states p pe layout asgs ri ms := by
  intro asgs
  induction asgs with
  | nil => intro ri ms _; rfl
  | cons a rest ih =>
    intro ri ms hmem
    obtain ⟨spec, slot⟩ := a
    have hstep := publishTile_sanitize states p pe layout spec slot ri ms
      (fun k e hke => hmem spec k e (by rw [hke]; exact List.mem_cons_self _ _))
    simp only [publishTiles, hstep]
    rw [ih _ _ (fun spec' k e h => hmem spec' k e (List.mem_cons_of_mem _ h))]

/-- Sanitising the icon options changes nothing about a published page:
the page walk, its items and its maps are identical, so an unparsable
icon option never aborts the walk and only ever surfaces as the E425
fallback glyph on its own tile. -/
theorem publish_page_sanitize (cfg : PanelCfg) (states : States) (p : Nat)
    (pe : PageEntry) (ms : Maps) (pt : List (Nat × List (String × Nat)))
    (pm : List (String × Nat)) :
    _publish_page_num cfg states p (sanitizeIcons pe) ms pt pm
      = _publish_page_num cfg states p pe ms pt pm := by
  have hb : buildAssignments (sanitizeIcons pe) = buildAssignments pe := rfl
  have hl : effectiveLayout (sanitizeIcons pe) = effectiveLayout pe := rfl
  simp only [_publish_page_num, hb, hl]
  rw [publishTiles_sanitize states p pe (effectiveLayout pe)
    (buildAssignments pe) 1 ms
    (fun spec k e h => buildAssignments_slot_sound pe spec k e h)]

/-- C8: icon parsing never aborts a page publish. An icon option whose
`int(code, 16)` parse fails renders as the fallback code `E425`; a
parsable code is used as-is; an unset (or empty) option falls back to
the per-domain default (`E210` for fans, `E425` otherwise); and a page
publishes identically to the same page with every icon option replaced
by its resolved code — in particular all tiles after an invalid icon
are still published, unchanged. -/
theorem c8_icon_fallback :
    (∀ s d, s ≠ "" → pyIntHex16 s = none → icon_code_of (some s) d = "E425") ∧
    (∀ s d, s ≠ "" → pyIntHex16 s ≠ none → icon_code_of (some s) d = s) ∧
    (∀ d, icon_code_of none d = (if d = "fan" then "E210" else "E425")) ∧
    (∀ d, icon_code_of (some "") d = (if d = "fan" then "E210" else "E425")) ∧
    (∀ (cfg : PanelCfg) (states : States) (p : Nat) (pe : PageEntry)
       (ms : Maps) (pt : List (Nat × List (String × Nat)))
       (pm : List (String × Nat)),
      _publish_page_num cfg states p (sanitizeIcons pe) ms pt pm
        = _publish_page_num cfg states p pe ms pt pm) :=
  ⟨fun s d hne hv => icon_code_of_invalid s d hne hv,
   fun s d hne hv => icon_code_of_valid s d hne hv,
   icon_code_of_default,
   fun d => by by_cases h : d = "fan" <;> simp [icon_code_of, pyOr, h] <;> rfl,
   publish_page_sanitize⟩

theorem c8_icon_fallback_witness :
    "ZZ" ≠ "" ∧ pyIntHex16 "ZZ" = none ∧
    icon_code_of (some "ZZ") "switch" = "E425" :=
  ⟨by decide, by decide, c8_icon_fallback.1 "ZZ" "switch" (by decide) (by decide)⟩
